import Mathlib

/-!
Shallow embedding of the ART JNI stub compiler
(`src/compiler/jni/quick/jni_compiler.cc`, function
`ArtJniCompileMethodInternal` and its helpers).

The macro assembler, the calling-convention iterators and the method
metadata are external interfaces of the source file; they are modelled
abstractly:
  * every `__ X(...)` macro-assembler invocation becomes one constructor
    of the `Op` type, emitted into a trace in source order;
  * the two `jni_asm->cfi().AdjustCFAOffset(...)` calls in the slow paths
    are likewise recorded as trace operations, so that the CFA offset
    tracked by the assembler can be recomputed by folding over the trace
    (`BuildFrame` sets the CFA offset to the frame size, as the per-arch
    implementations do via `DefCFAOffset`; `RemoveFrame` leaves the
    tracked offset unchanged, matching its `RememberState`/`RestoreState`/
    `DefCFAOffset(frame_size)` bracketing that the `DCHECK_EQ` after the
    call at line 709 relies on);
  * calling conventions are oracles: per-parameter register/stack
    placement, frame sizes, callee saves, etc. are unconstrained functions,
    since they are architecture-specific and live outside this file.
    `CurrentParamStackOffset` is displacement + a per-index base, matching
    `ResetIterator(FrameOffset(disp))` semantics;
  * `CHECK`/`CHECK_EQ`/... (active in all build modes) abort compilation:
    the compile function returns `Except Err`.  The debug-only attribute
    validations (lines 151-177, guarded by `kIsDebugBuild`) abort only
    when the debug flag is set.  `DCHECK`s that merely restate facts that
    hold by construction in this model (iterator `HasNext` sanity, the
    CFA `DCHECK_EQ`s - which are proved as theorems below - and the
    `DeclaringClassOffset() == 0` assertions) are not modelled as aborts.
  * the method-register liveness bookkeeping (the `NoRegister` sentinel
    of the source) is instrumented: every site that reads the register's
    value and every site that sets it to `NoRegister` mid-emission records
    an `MREvent` carrying the liveness observed at that site.
-/

/-- Managed register: either the `NoRegister` sentinel or a concrete core
register id together with the size of the view (`CoreRegisterWithSize`
changes the view size, keeping the id). -/
inductive MReg where
  | noReg : MReg
  | reg (id : Nat) (size : Nat) : MReg
deriving DecidableEq, Repr

/-- Model of `JNIMacroAssembler::CoreRegisterWithSize`. -/
def coreRegisterWithSize : MReg → Nat → MReg
  | MReg.noReg, _ => MReg.noReg
  | MReg.reg id _, s => MReg.reg id s

/-- Argument location: register or stack frame offset, with a size in
bytes (`ArgumentLocation` in the source). -/
inductive ArgLoc where
  | inReg (r : MReg) (size : Nat) : ArgLoc
  | onStack (off : Nat) (size : Nat) : ArgLoc
deriving DecidableEq, Repr

/-- Size in bytes of an argument location. -/
def ArgLoc.size : ArgLoc → Nat
  | ArgLoc.inReg _ s => s
  | ArgLoc.onStack _ s => s

/-- The labels created by `ArtJniCompileMethodInternal`. -/
inductive Label where
  | jclassReadBarrierSlowPath
  | jclassReadBarrierReturn
  | monitorEnterExceptionSlowPath
  | exceptionSlowPath
  | suspendCheckSlowPath
  | suspendCheckResume
deriving DecidableEq, Repr

/-- Fields of the `JNIEnvExt` record accessed by the local-reference
frame push/pop helpers. -/
inductive EnvField where
  | localRefCookie
  | segmentState
deriving DecidableEq, Repr

/-- Thread-relative runtime entrypoints referenced by the compiler. -/
inductive Entrypoint where
  | pJniMethodStart
  | pJniMethodStartSynchronized
  | pJniMethodEnd
  | pJniMethodEndWithReference
  | pJniMethodEndSynchronized
  | pJniMethodEndWithReferenceSynchronized
  | pJniDecodeReferenceResult
  | pReadBarrierJni
  | pTestSuspend
deriving DecidableEq, Repr

/-- Primitive types (`Primitive::Type` in the source). -/
inductive Primitive where
  | booleanT
  | byteT
  | charT
  | shortT
  | intT
  | longT
  | floatT
  | doubleT
  | notT
  | voidT
deriving DecidableEq, Repr

/-- Model of `Primitive::GetType` on shorty characters. -/
def Primitive.getType : Char → Primitive
  | 'Z' => Primitive.booleanT
  | 'B' => Primitive.byteT
  | 'C' => Primitive.charT
  | 'S' => Primitive.shortT
  | 'I' => Primitive.intT
  | 'J' => Primitive.longT
  | 'F' => Primitive.floatT
  | 'D' => Primitive.doubleT
  | 'L' => Primitive.notT
  | _ => Primitive.voidT

/-- Model of `Primitive::ComponentSize`. -/
def Primitive.componentSize : Primitive → Nat
  | Primitive.booleanT => 1
  | Primitive.byteT => 1
  | Primitive.charT => 2
  | Primitive.shortT => 2
  | Primitive.intT => 4
  | Primitive.longT => 8
  | Primitive.floatT => 4
  | Primitive.doubleT => 8
  | Primitive.notT => 4
  | Primitive.voidT => 0

/-- One abstract macro-assembler operation, in the order the source emits
them.  Constructors correspond one-to-one to the `__ X(...)` invocations
in `ArtJniCompileMethodInternal` and its helpers; `adjustCFAOffset`
records the direct `cfi().AdjustCFAOffset` calls of the slow paths, and
`deliverPendingException` carries the value of the `current_frame_size`
variable at its emission site (the value the source `DCHECK_EQ`s the CFA
offset against at line 789). -/
inductive Op where
  | buildFrame (frameSize : Nat) (methodReg : MReg) (calleeSaves : List MReg)
  | testGcMarking (target : Label)
  | bindLabel (l : Label)
  | storeStackPointerToThread
  | increaseFrameSize (n : Nat)
  | decreaseFrameSize (n : Nat)
  | adjustCFAOffset (d : Int)
  | moveArguments (dest : List ArgLoc) (src : List ArgLoc) (refs : List (Option Nat))
  | createJObjectStack (outOff : Nat) (spilledRefOff : Nat)
  | createJObjectReg (outReg : MReg) (spilledRefOff : Nat)
  | getCurrentThreadReg (r : MReg)
  | getCurrentThreadStack (off : Nat)
  | callReg (r : MReg) (ep : Entrypoint)
  | callFromThread (ep : Entrypoint)
  | exceptionPoll (l : Label)
  | loadRawPtrFromThread (r : MReg)
  | loadEnvField (dst : MReg) (env : MReg) (f : EnvField)
  | storeEnvField (env : MReg) (f : EnvField) (src : MReg)
  | move (dst : MReg) (src : MReg) (size : Nat)
  | load (dst : MReg) (off : Nat) (size : Nat)
  | store (off : Nat) (src : MReg) (size : Nat)
  | loadMember (dst : MReg) (base : MReg) (memberOff : Nat) (size : Nat)
  | storeRawPtr (off : Nat) (src : MReg)
  | copy (destOff : Nat) (srcOff : Nat) (size : Nat)
  | callMethodEntrypoint (r : MReg)
  | jumpMethodEntrypoint (r : MReg)
  | signExtend (r : MReg) (size : Nat)
  | zeroExtend (r : MReg) (size : Nat)
  | suspendCheck (l : Label)
  | jumpLabel (l : Label)
  | testMarkBit (r : MReg) (target : Label)
  | removeFrame (frameSize : Nat) (calleeSaves : List MReg) (maySuspend : Bool)
  | deliverPendingException (expectedFrameSize : Nat)
deriving DecidableEq, Repr

/-- Sites at which the source assigns `NoRegister` to `method_register`
mid-emission (lines 372 and 523). -/
inductive ClobberSite where
  | jniMethodStart
  | mainNativeCall
deriving DecidableEq, Repr

/-- Instrumentation event for the `method_register` liveness state machine:
`read live` records a site that uses the register's value together with
the liveness observed there (`live` = register is not the `NoRegister`
sentinel); `clobber site wasLive` records an assignment of `NoRegister`
together with the site and the prior liveness. -/
inductive MREvent where
  | read (live : Bool)
  | clobber (site : ClobberSite) (wasLive : Bool)
deriving DecidableEq, Repr

/-- Abort causes: each constructor is one of the `CHECK`s active in all
build modes, or one of the debug-only attribute validations. -/
inductive Err where
  | nativeFlagCheck
  | debugFastAndCritical
  | debugCriticalNonStatic
  | debugCriticalSynchronized
  | debugCriticalReferenceShorty
  | scratchRegisterCount
  | smallResultTailCall
  | smallResultBadType
  | returnSaveLocationRange
  | returnMoveTailCall
  | returnSizeMismatch
deriving DecidableEq, Repr

/-- Oracle for a `ManagedRuntimeCallingConvention`.  Per-parameter data is
indexed by the position in the managed parameter list (`this` first for
instance methods, then the shorty arguments).  `paramStackOffset` is the
per-index base; `CurrentParamStackOffset` adds the iterator displacement. -/
structure MrConvOracle where
  methodRegister : MReg
  methodStackOffset : Nat
  inRegister : Nat → Bool
  paramRegister : Nat → MReg
  paramStackOffset : Nat → Nat
  returnRegister : MReg
  sizeOfReturnValue : Nat

/-- Oracle for a `JniCallingConvention` (used for both the main and the
`end` conventions).  Per-parameter data is indexed by the position in the
JNI parameter list as the iterator walks it. -/
structure JniConvOracle where
  frameSize : Nat
  outFrameSize : Nat
  calleeSaveRegisters : List MReg
  calleeSaveScratchRegisters : List MReg
  inRegister : Nat → Bool
  paramRegister : Nat → MReg
  paramStackOffset : Nat → Nat
  paramSize : Nat → Nat
  hiddenArgumentRegister : MReg
  useTailCall : Bool
  returnRegister : MReg
  sizeOfReturnValue : Nat
  spillsReturnValue : Bool
  returnValueSaveLocation : Nat
  requiresSmallResultTypeExtension : Bool
  coreSpillMask : Nat
  fpSpillMask : Nat

/-- One compilation request: build flags, pointer size, access flags, the
method shorty (return character and argument characters), and the three
convention oracles produced by `JniCallingConvention::Create` /
`ManagedRuntimeCallingConvention::Create` for this method. -/
structure Config where
  kIsDebugBuild : Bool
  kUseReadBarrier : Bool
  kUseBakerReadBarrier : Bool
  kRawPointerSize : Nat
  accessFlags : Nat
  shortyRet : Char
  shortyArgs : List Char
  mr : MrConvOracle
  main : JniConvOracle
  endc : JniConvOracle

/-- Access flag bit `kAccStatic`. -/
def kAccStatic : Nat := 0x0008
/-- Access flag bit `kAccSynchronized`. -/
def kAccSynchronized : Nat := 0x0020
/-- Access flag bit `kAccNative`. -/
def kAccNative : Nat := 0x0100
/-- Access flag bit `kAccFastNative`. -/
def kAccFastNative : Nat := 0x00080000
/-- Access flag bit `kAccCriticalNative`. -/
def kAccCriticalNative : Nat := 0x00200000

/-- Size of a managed object reference (`kObjectReferenceSize`, asserted
to be 4 by the `static_assert`s in the source). -/
def kObjectReferenceSize : Nat := 4

/-- Size of a saved local-reference cookie (`kIRTCookieSize`). -/
def kIRTCookieSize : Nat := 4

/-- Line 122: `is_native = (access_flags & kAccNative) != 0`. -/
def is_native (cfg : Config) : Bool := cfg.accessFlags &&& kAccNative != 0
/-- Line 124: `is_static = (access_flags & kAccStatic) != 0`. -/
def is_static (cfg : Config) : Bool := cfg.accessFlags &&& kAccStatic != 0
/-- Line 125: `is_synchronized = (access_flags & kAccSynchronized) != 0`. -/
def is_synchronized (cfg : Config) : Bool := cfg.accessFlags &&& kAccSynchronized != 0
/-- Line 132: `is_fast_native = (access_flags & kAccFastNative) != 0`. -/
def is_fast_native (cfg : Config) : Bool := cfg.accessFlags &&& kAccFastNative != 0
/-- Line 135: `is_critical_native = (access_flags & kAccCriticalNative) != 0`. -/
def is_critical_native (cfg : Config) : Bool := cfg.accessFlags &&& kAccCriticalNative != 0

/-- Shorty character classification: reference types are `L`. -/
def isRefChar (c : Char) : Bool := c = 'L'
/-- Shorty character classification: wide types are `J` and `D`. -/
def isLongOrDoubleChar (c : Char) : Bool := c = 'J' || c = 'D'

/-- Line 191: `reference_return = main_jni_conv->IsReturnAReference()`,
which holds exactly when the shorty return character is `L`. -/
def reference_return (cfg : Config) : Bool := isRefChar cfg.shortyRet

/-- Lines 199-206: the synthetic shorty for the `end` convention. -/
def jni_end_shorty (cfg : Config) : String :=
  if reference_return cfg && is_synchronized cfg then "IL"
  else if reference_return cfg then "I"
  else "V"

/-- The `JniEntrypoint` selector enum of the source (lines 77-80). -/
inductive JniEntrypoint where
  | kStart
  | kEnd
deriving DecidableEq, Repr

/-- Lines 82-108: `GetJniEntrypointThreadOffset`, selecting the
`JniMethodStart*` / `JniMethodEnd*` runtime entrypoint. -/
def GetJniEntrypointThreadOffset (which : JniEntrypoint)
    (referenceReturn : Bool) (isSynchronized : Bool) : Entrypoint :=
  match which with
  | JniEntrypoint.kStart =>
      if isSynchronized then Entrypoint.pJniMethodStartSynchronized
      else Entrypoint.pJniMethodStart
  | JniEntrypoint.kEnd =>
      if referenceReturn then
        if isSynchronized then Entrypoint.pJniMethodEndWithReferenceSynchronized
        else Entrypoint.pJniMethodEndWithReference
      else
        if isSynchronized then Entrypoint.pJniMethodEndSynchronized
        else Entrypoint.pJniMethodEnd

/-- Number of managed parameters walked by the `mr_conv` iterator:
`this` (for instance methods) followed by the shorty arguments. -/
def mrParamCount (cfg : Config) : Nat :=
  (if is_static cfg then 0 else 1) + cfg.shortyArgs.length

/-- Whether managed parameter `i` is a reference (`IsCurrentParamAReference`
on `mr_conv`): `this` is a reference; otherwise look at the shorty. -/
def mrParamIsReference (cfg : Config) (i : Nat) : Bool :=
  if is_static cfg then isRefChar (cfg.shortyArgs.getD i 'V')
  else if i = 0 then true
  else isRefChar (cfg.shortyArgs.getD (i - 1) 'V')

/-- Whether managed parameter `i` is a long or double
(`IsCurrentParamALongOrDouble` on `mr_conv`). -/
def mrParamIsLongOrDouble (cfg : Config) (i : Nat) : Bool :=
  if is_static cfg then isLongOrDoubleChar (cfg.shortyArgs.getD i 'V')
  else if i = 0 then false
  else isLongOrDoubleChar (cfg.shortyArgs.getD (i - 1) 'V')

/-- Managed `CurrentParamStackOffset` after `ResetIterator(FrameOffset
disp)`: displacement plus the per-index base. -/
def mrStackOff (cfg : Config) (disp i : Nat) : Nat := disp + cfg.mr.paramStackOffset i

/-- JNI `CurrentParamStackOffset` after `ResetIterator(FrameOffset disp)`. -/
def jniStackOff (conv : JniConvOracle) (disp i : Nat) : Nat :=
  disp + conv.paramStackOffset i

/-- Line 227: `managed_frame_size = main_jni_conv->FrameSize()`. -/
def managed_frame_size (cfg : Config) : Nat := cfg.main.frameSize

/-- Line 228: `main_out_arg_size = main_jni_conv->OutFrameSize()`. -/
def main_out_arg_size (cfg : Config) : Nat := cfg.main.outFrameSize

/-- Line 229: the initial `current_frame_size`. -/
def initialFrameSize (cfg : Config) : Nat :=
  if is_critical_native cfg then main_out_arg_size cfg else managed_frame_size cfg

/-- Value of `current_frame_size` after step 2.1 (lines 264-270): grown by
`main_out_arg_size` for non-critical methods. -/
def frameSizeAfterPrologue (cfg : Config) : Nat :=
  if is_critical_native cfg then initialFrameSize cfg
  else initialFrameSize cfg + main_out_arg_size cfg

/-- Guard of step 5.4 (line 602): the `end` convention needs more out-arg
space than the main one (evaluated only for non-critical methods). -/
def endGrows (cfg : Config) : Bool :=
  !is_critical_native cfg && decide (cfg.endc.outFrameSize > main_out_arg_size cfg)

/-- Line 604: `out_arg_size_diff`. -/
def outArgSizeDiff (cfg : Config) : Nat := cfg.endc.outFrameSize - main_out_arg_size cfg

/-- Value of `current_out_arg_size` after step 5.4. -/
def currentOutArgSizeFinal (cfg : Config) : Nat :=
  if endGrows cfg then cfg.endc.outFrameSize else main_out_arg_size cfg

/-- Value of `current_frame_size` after step 5.4. -/
def frameSizeAtEndCall (cfg : Config) : Nat :=
  if endGrows cfg then frameSizeAfterPrologue cfg + outArgSizeDiff cfg
  else frameSizeAfterPrologue cfg

/-- Value of `current_frame_size` after step 7.1 (line 683), i.e. the value
the frame-removal and the exception slow path observe. -/
def frameSizeFinal (cfg : Config) : Nat :=
  if is_critical_native cfg then frameSizeAtEndCall cfg
  else frameSizeAtEndCall cfg - currentOutArgSizeFinal cfg

/-- Lines 230-231: the initial `method_register`. -/
def methodRegisterInitial (cfg : Config) : MReg :=
  if is_critical_native cfg then MReg.noReg else cfg.mr.methodRegister

/-- Value of `method_register` after step 2.3 (clobbered at line 372 when
the `JniMethodStart*` call is emitted, i.e. for normal native). -/
def methodRegisterAfterStart (cfg : Config) : MReg :=
  if !is_critical_native cfg && !is_fast_native cfg then MReg.noReg
  else methodRegisterInitial cfg

/-- Line 390: `jni_env_reg = callee_save_scratch_regs[0]`. -/
def jniEnvReg (cfg : Config) : MReg :=
  cfg.main.calleeSaveScratchRegisters.getD 0 MReg.noReg

/-- Line 391: `saved_cookie_reg`. -/
def savedCookieReg (cfg : Config) : MReg :=
  coreRegisterWithSize (cfg.main.calleeSaveScratchRegisters.getD 1 MReg.noReg) kIRTCookieSize

/-- Line 392: `callee_save_temp`. -/
def calleeSaveTemp (cfg : Config) : MReg :=
  coreRegisterWithSize (cfg.main.calleeSaveScratchRegisters.getD 2 MReg.noReg) kIRTCookieSize

/-- Line 420 condition: the method pointer must be materialized in
`callee_save_temp` (non-static method, or the `jclass` argument of the
native call lives on the stack). -/
def needsMethodTemp (cfg : Config) : Bool :=
  !is_static cfg || !cfg.main.inRegister 1

/-- Value of `method_register` after the materialization block of step 4.1
(lines 420-434). -/
def newMethodRegP41 (cfg : Config) : MReg :=
  if needsMethodTemp cfg then coreRegisterWithSize (calleeSaveTemp cfg) cfg.kRawPointerSize
  else methodRegisterAfterStart cfg

/-- Value of `method_register` at the main native call (line 520): for a
static method whose `jclass` argument is in a register, the `jclass`
argument register (line 446); otherwise the materialized register. -/
def methodRegisterForMainCall (cfg : Config) : MReg :=
  if is_static cfg && cfg.main.inRegister 1 then cfg.main.paramRegister 1
  else newMethodRegP41 cfg

/-- First managed parameter index walked by the argument loops: `0` except
for the non-critical instance case, where the `this` argument was already
handled (lines 292-309 / 453-469). -/
def loopStart (cfg : Config) : Nat :=
  if is_critical_native cfg then 0
  else if is_static cfg then 0 else 1

/-- Number of loop iterations: the remaining managed parameters. -/
def loopCount (cfg : Config) : Nat := mrParamCount cfg - loopStart cfg

/-- Offset between the managed parameter index and the JNI parameter index
during lockstep iteration: the JNI iterator was advanced past `JNIEnv*`
(and past `jclass` for static methods) before the loop, while for
critical native no `Next()` calls were made. -/
def loopMainDelta (cfg : Config) : Nat :=
  if is_critical_native cfg then 0
  else if is_static cfg then 2 else 1

/-- Head of the step 2.2 spill plan (lines 285-309): the no-op
`method_register` move for static methods, or the in-place raw spill of
`this` for instance methods.  Triples are (source, destination,
reference-spill offset); `none` models `kInvalidReferenceOffset`. -/
def spillPlanHead (cfg : Config) (methodReg : MReg) (mrDisp : Nat) :
    List (ArgLoc × ArgLoc × Option Nat) :=
  if is_static cfg then
    [(ArgLoc.inReg methodReg cfg.kRawPointerSize,
      ArgLoc.inReg methodReg cfg.kRawPointerSize, none)]
  else
    [((if cfg.mr.inRegister 0 then ArgLoc.inReg (cfg.mr.paramRegister 0) kObjectReferenceSize
       else ArgLoc.onStack (mrStackOff cfg mrDisp 0) kObjectReferenceSize),
      ArgLoc.onStack (mrStackOff cfg mrDisp 0) kObjectReferenceSize, none)]

/-- One iteration of the step 2.2 loop (lines 310-324) for managed
parameter `i`. -/
def spillPlanEntry (cfg : Config) (mrDisp i : Nat) : ArgLoc × ArgLoc × Option Nat :=
  let j := i + loopMainDelta cfg
  let is_reference := mrParamIsReference cfg i
  let spill_jobject := is_reference && !cfg.main.inRegister j
  let src_size := if !is_reference && mrParamIsLongOrDouble cfg i then 8 else 4
  let dest_size := if spill_jobject then cfg.kRawPointerSize else src_size
  ((if cfg.mr.inRegister i then ArgLoc.inReg (cfg.mr.paramRegister i) src_size
    else ArgLoc.onStack (mrStackOff cfg mrDisp i) src_size),
   (if cfg.main.inRegister j then ArgLoc.onStack (mrStackOff cfg mrDisp i) dest_size
    else ArgLoc.onStack (jniStackOff cfg.main (main_out_arg_size cfg) j) dest_size),
   (if spill_jobject then some (mrStackOff cfg mrDisp i) else none))

/-- Full step 2.2 spill plan: head entry followed by the loop entries.  The
managed iterator displacement `mrDisp` is `current_frame_size` (line 282)
and the JNI iterator displacement is `main_out_arg_size` (line 283). -/
def spillPlan (cfg : Config) (methodReg : MReg) (mrDisp : Nat) :
    List (ArgLoc × ArgLoc × Option Nat) :=
  spillPlanHead cfg methodReg mrDisp
  ++ (List.range' (loopStart cfg) (loopCount cfg)).map (spillPlanEntry cfg mrDisp)

/-- One iteration of the step 4.1 loop (lines 472-491); `none` when the
iteration is skipped because a normal-native stack argument was already
planted in step 2.2 (line 475-477). -/
def mainPlanEntry (cfg : Config) (mrDisp i : Nat) : Option (ArgLoc × ArgLoc × Option Nat) :=
  let j := i + loopMainDelta cfg
  let dest_in_reg := cfg.main.inRegister j
  if !is_critical_native cfg && !is_fast_native cfg && !dest_in_reg then none
  else
    let is_reference := mrParamIsReference cfg i
    let src_size := if !is_reference && mrParamIsLongOrDouble cfg i then 8 else 4
    let dest_size := if is_reference then cfg.kRawPointerSize else src_size
    some
      ((if (is_critical_native cfg || is_fast_native cfg) && cfg.mr.inRegister i then
          ArgLoc.inReg (cfg.mr.paramRegister i) src_size
        else ArgLoc.onStack (mrStackOff cfg mrDisp i) src_size),
       (if dest_in_reg then ArgLoc.inReg (cfg.main.paramRegister j) dest_size
        else ArgLoc.onStack (jniStackOff cfg.main (main_out_arg_size cfg) j) dest_size),
       (if is_reference then some (mrStackOff cfg mrDisp i) else none))

/-- Head of the step 4.1 plan (lines 410-470): the hidden-argument move for
critical native, the `jclass` entry for static methods, or the `this`
entry for instance methods. -/
def mainPlanHead (cfg : Config) (mrDisp : Nat) : List (ArgLoc × ArgLoc × Option Nat) :=
  if is_critical_native cfg then
    [(ArgLoc.inReg cfg.mr.methodRegister cfg.kRawPointerSize,
      ArgLoc.inReg cfg.main.hiddenArgumentRegister cfg.kRawPointerSize, none)]
  else if is_static cfg then
    [((if newMethodRegP41 cfg = MReg.noReg then
         ArgLoc.onStack (main_out_arg_size cfg + cfg.mr.methodStackOffset) cfg.kRawPointerSize
       else ArgLoc.inReg (newMethodRegP41 cfg) cfg.kRawPointerSize),
      (if cfg.main.inRegister 1 then ArgLoc.inReg (cfg.main.paramRegister 1) cfg.kRawPointerSize
       else ArgLoc.onStack (jniStackOff cfg.main (main_out_arg_size cfg) 1) cfg.kRawPointerSize),
      none)]
  else
    [((if is_fast_native cfg && cfg.mr.inRegister 0 then
         ArgLoc.inReg (cfg.mr.paramRegister 0) kObjectReferenceSize
       else ArgLoc.onStack (mrStackOff cfg mrDisp 0) kObjectReferenceSize),
      (if cfg.main.inRegister 1 then ArgLoc.inReg (cfg.main.paramRegister 1) cfg.kRawPointerSize
       else ArgLoc.onStack (jniStackOff cfg.main (main_out_arg_size cfg) 1) cfg.kRawPointerSize),
      some (mrStackOff cfg mrDisp 0))]

/-- Full step 4.1 plan. -/
def mainPlan (cfg : Config) (mrDisp : Nat) : List (ArgLoc × ArgLoc × Option Nat) :=
  mainPlanHead cfg mrDisp
  ++ (List.range' (loopStart cfg) (loopCount cfg)).filterMap (mainPlanEntry cfg mrDisp)

/-- Lines 842-854: `SetNativeParameter`, storing or moving a register into
the current parameter of a JNI convention iterator (with displacement
`disp`, positioned at index `idx`). -/
def SetNativeParameterOps (conv : JniConvOracle) (disp idx : Nat) (inRegArg : MReg) :
    List Op :=
  if !conv.inRegister idx then
    [Op.storeRawPtr (jniStackOff conv disp idx) inRegArg]
  else if conv.paramRegister idx ≠ inRegArg then
    [Op.move (conv.paramRegister idx) inRegArg (conv.paramSize idx)]
  else []

/-- Lines 808-823: `PushLocalReferenceFrame`. -/
def PushLocalReferenceFrameOps (envReg savedCookie temp : MReg) : List Op :=
  [Op.loadEnvField savedCookie envReg EnvField.localRefCookie,
   Op.loadEnvField temp envReg EnvField.segmentState,
   Op.storeEnvField envReg EnvField.localRefCookie temp]

/-- Lines 825-840: `PopLocalReferenceFrame`. -/
def PopLocalReferenceFrameOps (envReg savedCookie temp : MReg) : List Op :=
  [Op.loadEnvField temp envReg EnvField.localRefCookie,
   Op.storeEnvField envReg EnvField.segmentState temp,
   Op.storeEnvField envReg EnvField.localRefCookie savedCookie]

/-- Step 1 (lines 223-258): build the frame, the optional read-barrier
fast check for the declaring class, and the top-of-managed-stack store. -/
def phase1Ops (cfg : Config) : List Op :=
  [Op.buildFrame (initialFrameSize cfg) (methodRegisterInitial cfg) cfg.main.calleeSaveRegisters]
  ++ (if cfg.kUseReadBarrier && is_static cfg && !is_critical_native cfg then
        [Op.testGcMarking Label.jclassReadBarrierSlowPath,
         Op.bindLabel Label.jclassReadBarrierReturn]
      else [])
  ++ (if !is_critical_native cfg then [Op.storeStackPointerToThread] else [])

/-- Step 2.1 (lines 262-270): move the frame down for the out args
(non-critical only). -/
def phase21Ops (cfg : Config) : List Op :=
  if is_critical_native cfg then []
  else [Op.increaseFrameSize (main_out_arg_size cfg)]

/-- Step 2.2 (lines 272-328): spill register arguments across the
`JniMethodStart*` call (normal native only). -/
def phase22Ops (cfg : Config) : List Op :=
  if !is_critical_native cfg && !is_fast_native cfg then
    let plan := spillPlan cfg (methodRegisterInitial cfg) (frameSizeAfterPrologue cfg)
    [Op.moveArguments (plan.map (fun t => t.2.1)) (plan.map (fun t => t.1))
       (plan.map (fun t => t.2.2))]
  else []

/-- Method-register events of step 2.2: the no-op move for static methods
uses the register's value (lines 289-290). -/
def phase22Evs (cfg : Config) : List MREvent :=
  if !is_critical_native cfg && !is_fast_native cfg && is_static cfg then
    [MREvent.read (methodRegisterInitial cfg ≠ MReg.noReg)]
  else []

/-- Step 2.3 (lines 330-376): call `JniMethodStart*` (normal native only),
passing the lock object for synchronized methods and the current thread,
then poll for a monitor-enter exception. -/
def phase23Ops (cfg : Config) : List Op :=
  if !is_critical_native cfg && !is_fast_native cfg then
    let jni_start := GetJniEntrypointThreadOffset JniEntrypoint.kStart
        (reference_return cfg) (is_synchronized cfg)
    let lockOps : List Op :=
      if is_synchronized cfg then
        if is_static cfg then
          SetNativeParameterOps cfg.main (main_out_arg_size cfg) 0 (methodRegisterInitial cfg)
        else
          (if !cfg.main.inRegister 0 then
             [Op.createJObjectStack (jniStackOff cfg.main (main_out_arg_size cfg) 0)
                (mrStackOff cfg (frameSizeAfterPrologue cfg) 0)]
           else
             [Op.createJObjectReg (cfg.main.paramRegister 0)
                (mrStackOff cfg (frameSizeAfterPrologue cfg) 0)])
      else []
    let tIdx := if is_synchronized cfg then 1 else 0
    let callOps : List Op :=
      if cfg.main.inRegister tIdx then
        [Op.getCurrentThreadReg (cfg.main.paramRegister tIdx),
         Op.callReg (cfg.main.paramRegister tIdx) jni_start]
      else
        [Op.getCurrentThreadStack (jniStackOff cfg.main (main_out_arg_size cfg) tIdx),
         Op.callFromThread jni_start]
    lockOps ++ callOps
    ++ (if is_synchronized cfg then [Op.exceptionPoll Label.monitorEnterExceptionSlowPath] else [])
  else []

/-- Method-register events of step 2.3: the static lock-object pass reads
the register (line 347); line 372 clobbers it. -/
def phase23Evs (cfg : Config) : List MREvent :=
  if !is_critical_native cfg && !is_fast_native cfg then
    (if is_synchronized cfg && is_static cfg then
       [MREvent.read (methodRegisterInitial cfg ≠ MReg.noReg)]
     else [])
    ++ [MREvent.clobber ClobberSite.jniMethodStart (methodRegisterInitial cfg ≠ MReg.noReg)]
  else []

/-- Step 3 (lines 378-400): load the JNI environment pointer and push the
local reference frame (non-critical only). -/
def phase3Ops (cfg : Config) : List Op :=
  if !is_critical_native cfg then
    [Op.loadRawPtrFromThread (jniEnvReg cfg)]
    ++ PushLocalReferenceFrameOps (jniEnvReg cfg) (savedCookieReg cfg) (calleeSaveTemp cfg)
  else []

/-- Step 4.1 (lines 404-495): materialize the method pointer if needed and
move all arguments to their native locations. -/
def phase41Ops (cfg : Config) : List Op :=
  let mrDisp := frameSizeAfterPrologue cfg
  let plan := mainPlan cfg mrDisp
  (if !is_critical_native cfg && needsMethodTemp cfg then
     (if is_fast_native cfg then
        [Op.move (newMethodRegP41 cfg) (methodRegisterAfterStart cfg) cfg.kRawPointerSize]
      else
        [Op.load (newMethodRegP41 cfg)
           (main_out_arg_size cfg + cfg.mr.methodStackOffset) cfg.kRawPointerSize])
   else [])
  ++ [Op.moveArguments (plan.map (fun t => t.2.1)) (plan.map (fun t => t.1))
        (plan.map (fun t => t.2.2))]

/-- Method-register events of step 4.1: the fast-native materialization
move reads the old register (line 428); the static source entry reads the
materialized register when it is available (line 442). -/
def phase41Evs (cfg : Config) : List MREvent :=
  if !is_critical_native cfg then
    (if needsMethodTemp cfg && is_fast_native cfg then
       [MREvent.read (methodRegisterAfterStart cfg ≠ MReg.noReg)]
     else [])
    ++ (if is_static cfg && newMethodRegP41 cfg ≠ MReg.noReg then
          [MREvent.read (newMethodRegP41 cfg ≠ MReg.noReg)]
        else [])
  else []

/-- Step 4.2 (lines 497-507): plant the `JNIEnv*` argument. -/
def phase42Ops (cfg : Config) : List Op :=
  if !is_critical_native cfg then
    if cfg.main.inRegister 0 then
      [Op.move (cfg.main.paramRegister 0) (jniEnvReg cfg) cfg.kRawPointerSize]
    else
      [Op.store (jniStackOff cfg.main (main_out_arg_size cfg) 0) (jniEnvReg cfg)
         cfg.kRawPointerSize]
  else []

/-- Step 4.3 (lines 509-524): the call (or tail jump) to the native code
through `ArtMethod::EntryPointFromJniOffset`. -/
def phase43Ops (cfg : Config) : List Op :=
  if is_critical_native cfg then
    if cfg.main.useTailCall then [Op.jumpMethodEntrypoint cfg.main.hiddenArgumentRegister]
    else [Op.callMethodEntrypoint cfg.main.hiddenArgumentRegister]
  else [Op.callMethodEntrypoint (methodRegisterForMainCall cfg)]

/-- Method-register events of step 4.3: the indirect call reads the
register (line 520); line 523 clobbers it. -/
def phase43Evs (cfg : Config) : List MREvent :=
  if !is_critical_native cfg then
    [MREvent.read (methodRegisterForMainCall cfg ≠ MReg.noReg),
     MREvent.clobber ClobberSite.mainNativeCall (methodRegisterForMainCall cfg ≠ MReg.noReg)]
  else []

/-- Step 4.4 (lines 526-540): sign- or zero-extend small return types. -/
def phase44Ops (cfg : Config) : List Op :=
  if cfg.main.requiresSmallResultTypeExtension then
    if Primitive.getType cfg.shortyRet = Primitive.byteT
       || Primitive.getType cfg.shortyRet = Primitive.shortT then
      [Op.signExtend cfg.main.returnRegister
         (Primitive.componentSize (Primitive.getType cfg.shortyRet))]
    else
      [Op.zeroExtend cfg.main.returnRegister
         (Primitive.componentSize (Primitive.getType cfg.shortyRet))]
  else []

/-- Step 5.1 (lines 544-578): spill the return value for normal native, or
move it between the native and managed return registers for fast/critical
native. -/
def phase51Ops (cfg : Config) : List Op :=
  if cfg.main.spillsReturnValue then
    [Op.store cfg.main.returnValueSaveLocation cfg.main.returnRegister
       cfg.main.sizeOfReturnValue]
  else if (is_fast_native cfg || is_critical_native cfg)
          && cfg.main.sizeOfReturnValue ≠ 0 then
    if cfg.main.returnRegister ≠ cfg.mr.returnRegister then
      [Op.move cfg.mr.returnRegister cfg.main.returnRegister cfg.main.sizeOfReturnValue]
    else []
  else []

/-- Steps 5.2-5.3 (lines 580-597): for fast-native reference returns, the
early exception poll and the early suspend check. -/
def phase5253Ops (cfg : Config) : List Op :=
  if is_fast_native cfg && reference_return cfg then
    [Op.exceptionPoll Label.exceptionSlowPath,
     Op.suspendCheck Label.suspendCheckSlowPath,
     Op.bindLabel Label.suspendCheckResume]
  else []

/-- Step 5.4 (lines 600-609): grow the frame when the `end` convention
needs more out-arg space. -/
def phase54Ops (cfg : Config) : List Op :=
  if endGrows cfg then [Op.increaseFrameSize (outArgSizeDiff cfg)] else []

/-- Line 615-619: the entrypoint of the step 5.5 call. -/
def jniEndEp (cfg : Config) : Entrypoint :=
  if is_fast_native cfg then Entrypoint.pJniDecodeReferenceResult
  else GetJniEntrypointThreadOffset JniEntrypoint.kEnd
         (reference_return cfg) (is_synchronized cfg)

/-- Index of the `end` convention parameter receiving the unlock object
(0, or 1 after the returned reference). -/
def endLockIdx (cfg : Config) : Nat := if reference_return cfg then 1 else 0

/-- Index of the `end` convention parameter receiving the current thread. -/
def endThreadIdx (cfg : Config) : Nat :=
  if is_synchronized cfg then endLockIdx cfg + 1 else endLockIdx cfg

/-- Lines 620-624: pass the returned reference to the `end` call. -/
def endRetOps (cfg : Config) : List Op :=
  if reference_return cfg then
    SetNativeParameterOps cfg.endc cfg.endc.outFrameSize 0 cfg.endc.returnRegister
  else []

/-- Lines 625-655: pass the object for unlocking to the `end` call. -/
def endLockOps (cfg : Config) : List Op :=
  if is_synchronized cfg then
    if is_static cfg then
      (if !cfg.endc.inRegister (endLockIdx cfg) then
         [Op.copy (jniStackOff cfg.endc cfg.endc.outFrameSize (endLockIdx cfg))
            (currentOutArgSizeFinal cfg + cfg.mr.methodStackOffset)
            cfg.kRawPointerSize]
       else
         [Op.load (cfg.endc.paramRegister (endLockIdx cfg))
            (currentOutArgSizeFinal cfg + cfg.mr.methodStackOffset)
            cfg.kRawPointerSize])
    else
      (if !cfg.endc.inRegister (endLockIdx cfg) then
         [Op.createJObjectStack (jniStackOff cfg.endc cfg.endc.outFrameSize (endLockIdx cfg))
            (mrStackOff cfg (frameSizeAtEndCall cfg) 0)]
       else
         [Op.createJObjectReg (cfg.endc.paramRegister (endLockIdx cfg))
            (mrStackOff cfg (frameSizeAtEndCall cfg) 0)])
  else []

/-- Lines 656-662: pass the current thread and call the `end` entrypoint. -/
def endCallSeqOps (cfg : Config) : List Op :=
  if cfg.endc.inRegister (endThreadIdx cfg) then
    [Op.getCurrentThreadReg (cfg.endc.paramRegister (endThreadIdx cfg)),
     Op.callReg (cfg.endc.paramRegister (endThreadIdx cfg)) (jniEndEp cfg)]
  else
    [Op.getCurrentThreadStack (jniStackOff cfg.endc cfg.endc.outFrameSize (endThreadIdx cfg)),
     Op.callFromThread (jniEndEp cfg)]

/-- Step 5.5 (lines 612-663): the `JniMethodEnd*` call for normal native,
or the `JniDecodeReferenceResult` call for fast-native reference returns. -/
def phase55Ops (cfg : Config) : List Op :=
  if !is_fast_native cfg || reference_return cfg then
    endRetOps cfg ++ endLockOps cfg ++ endCallSeqOps cfg
  else []

/-- Step 5.6 (lines 665-668): reload the spilled return value, from the
save location adjusted by the step 5.4 growth (line 608). -/
def phase56Ops (cfg : Config) : List Op :=
  if cfg.main.spillsReturnValue then
    [Op.load cfg.mr.returnRegister
       (if endGrows cfg then cfg.main.returnValueSaveLocation + outArgSizeDiff cfg
        else cfg.main.returnValueSaveLocation)
       cfg.mr.sizeOfReturnValue]
  else []

/-- Steps 5.4-5.6 (lines 599-669), emitted only for non-critical methods. -/
def phase5456Ops (cfg : Config) : List Op :=
  if !is_critical_native cfg then
    phase54Ops cfg ++ phase55Ops cfg ++ phase56Ops cfg
  else []

/-- Step 6 (lines 671-675): pop the local reference frame. -/
def phase6Ops (cfg : Config) : List Op :=
  if !is_critical_native cfg then
    PopLocalReferenceFrameOps (jniEnvReg cfg) (savedCookieReg cfg) (calleeSaveTemp cfg)
  else []

/-- Step 7 (lines 677-710): drop the out-arg area, poll for exceptions,
perform the fast-native suspend check, and remove the frame. -/
def phase7Ops (cfg : Config) : List Op :=
  (if !is_critical_native cfg then [Op.decreaseFrameSize (currentOutArgSizeFinal cfg)] else [])
  ++ (if !is_critical_native cfg && (!is_fast_native cfg || !reference_return cfg) then
        [Op.exceptionPoll Label.exceptionSlowPath]
      else [])
  ++ (if is_fast_native cfg && !reference_return cfg then
        [Op.suspendCheck Label.suspendCheckSlowPath, Op.bindLabel Label.suspendCheckResume]
      else [])
  ++ (if !is_critical_native cfg || !cfg.main.useTailCall then
        [Op.removeFrame (frameSizeFinal cfg) cfg.main.calleeSaveRegisters
           (!is_critical_native cfg)]
      else [])

/-- Step 8.1 (lines 714-747): the read-barrier slow path for the declaring
class of a static method. -/
def phase81Ops (cfg : Config) : List Op :=
  if cfg.kUseReadBarrier && is_static cfg && !is_critical_native cfg then
    [Op.bindLabel Label.jclassReadBarrierSlowPath]
    ++ (if cfg.kUseBakerReadBarrier then
          [Op.loadMember (coreRegisterWithSize
               (cfg.main.calleeSaveScratchRegisters.getD 0 MReg.noReg) kObjectReferenceSize)
             cfg.mr.methodRegister 0 kObjectReferenceSize,
           Op.testMarkBit (coreRegisterWithSize
               (cfg.main.calleeSaveScratchRegisters.getD 0 MReg.noReg) kObjectReferenceSize)
             Label.jclassReadBarrierReturn]
        else [])
    ++ [Op.callFromThread Entrypoint.pReadBarrierJni,
        Op.jumpLabel Label.jclassReadBarrierReturn]
  else []

/-- Method-register events of step 8.1: line 731 re-binds the register to
`mr_conv->MethodRegister()` and line 736 reads it. -/
def phase81Evs (cfg : Config) : List MREvent :=
  if cfg.kUseReadBarrier && is_static cfg && !is_critical_native cfg
     && cfg.kUseBakerReadBarrier then
    [MREvent.read (cfg.mr.methodRegister ≠ MReg.noReg)]
  else []

/-- Step 8.2 (lines 749-767): the fast-native suspend-check slow path, with
its CFA-balancing frame rewind for reference returns. -/
def phase82Ops (cfg : Config) : List Op :=
  if is_fast_native cfg then
    [Op.bindLabel Label.suspendCheckSlowPath]
    ++ (if reference_return cfg && main_out_arg_size cfg ≠ 0 then
          [Op.adjustCFAOffset (main_out_arg_size cfg : Int),
           Op.decreaseFrameSize (main_out_arg_size cfg)]
        else [])
    ++ [Op.callFromThread Entrypoint.pTestSuspend]
    ++ (if reference_return cfg then [Op.storeStackPointerToThread] else [])
    ++ (if reference_return cfg && main_out_arg_size cfg ≠ 0 then
          [Op.increaseFrameSize (main_out_arg_size cfg),
           Op.adjustCFAOffset (-(main_out_arg_size cfg : Int))]
        else [])
    ++ [Op.jumpLabel Label.suspendCheckResume]
  else []

/-- Step 8.3 (lines 769-791): the exception-delivery slow path(s). -/
def phase83Ops (cfg : Config) : List Op :=
  if !is_critical_native cfg then
    (if is_synchronized cfg then
       [Op.bindLabel Label.monitorEnterExceptionSlowPath]
       ++ (if main_out_arg_size cfg ≠ 0 then
             [Op.adjustCFAOffset (main_out_arg_size cfg : Int),
              Op.decreaseFrameSize (main_out_arg_size cfg)]
           else [])
     else [])
    ++ [Op.bindLabel Label.exceptionSlowPath]
    ++ (if is_fast_native cfg && reference_return cfg then
          (if main_out_arg_size cfg ≠ 0 then
             [Op.adjustCFAOffset (main_out_arg_size cfg : Int),
              Op.decreaseFrameSize (main_out_arg_size cfg)]
           else [])
          ++ PopLocalReferenceFrameOps (jniEnvReg cfg) (savedCookieReg cfg) (calleeSaveTemp cfg)
        else [])
    ++ [Op.deliverPendingException (frameSizeFinal cfg)]
  else []

/-- The full emitted operation trace: the nine steps in source order. -/
def emittedOps (cfg : Config) : List Op :=
  phase1Ops cfg ++ phase21Ops cfg ++ phase22Ops cfg ++ phase23Ops cfg ++ phase3Ops cfg
  ++ phase41Ops cfg ++ phase42Ops cfg ++ phase43Ops cfg ++ phase44Ops cfg
  ++ phase51Ops cfg ++ phase5253Ops cfg ++ phase5456Ops cfg ++ phase6Ops cfg
  ++ phase7Ops cfg ++ phase81Ops cfg ++ phase82Ops cfg ++ phase83Ops cfg

/-- The method-register instrumentation events, in emission order. -/
def emittedEvents (cfg : Config) : List MREvent :=
  phase22Evs cfg ++ phase23Evs cfg ++ phase41Evs cfg ++ phase43Evs cfg ++ phase81Evs cfg

/-- The result of a successful compile (`JniCompiledMethod` plus the
instrumentation and the `end`-convention shorty recorded for analysis). -/
structure CompileResult where
  ops : List Op
  mrEvents : List MREvent
  jniEndShorty : String
  managedFrameSize : Nat
  coreSpillMask : Nat
  fpSpillMask : Nat
deriving DecidableEq, Repr

/-- The result assembled at lines 793-806. -/
def mkResult (cfg : Config) : CompileResult :=
  { ops := emittedOps cfg
    mrEvents := emittedEvents cfg
    jniEndShorty := jni_end_shorty cfg
    managedFrameSize := managed_frame_size cfg
    coreSpillMask := cfg.main.coreSpillMask
    fpSpillMask := cfg.main.fpSpillMask }

/-- Value of `current_frame_size` at the `CHECK_LT` of line 553 (the frame
has been grown by the out args in step 2.1 but not yet by step 5.4). -/
def frameSizeAtSpillCheck (cfg : Config) : Nat := frameSizeAfterPrologue cfg

/-- The first failing check of `ArtJniCompileMethodInternal`, in source
order: the `CHECK(is_native)` of line 123, then (when `kIsDebugBuild`)
the attribute validations of lines 151-177, then the `CHECK`s that are
active in every build mode (lines 389, 529, 535, 553, 568, 576).  The
result is `none` when the compile runs to completion. -/
def firstError (cfg : Config) : Option Err :=
  if !is_native cfg then some Err.nativeFlagCheck
  else if cfg.kIsDebugBuild && is_fast_native cfg && is_critical_native cfg then
    some Err.debugFastAndCritical
  else if cfg.kIsDebugBuild && is_critical_native cfg && !is_static cfg then
    some Err.debugCriticalNonStatic
  else if cfg.kIsDebugBuild && is_critical_native cfg && is_synchronized cfg then
    some Err.debugCriticalSynchronized
  else if cfg.kIsDebugBuild && is_critical_native cfg
          && (cfg.shortyRet :: cfg.shortyArgs).any isRefChar then
    some Err.debugCriticalReferenceShorty
  else if !is_critical_native cfg && cfg.main.calleeSaveScratchRegisters.length < 3 then
    some Err.scratchRegisterCount
  else if cfg.main.requiresSmallResultTypeExtension
          && is_critical_native cfg && cfg.main.useTailCall then
    some Err.smallResultTailCall
  else if cfg.main.requiresSmallResultTypeExtension
          && !(Primitive.getType cfg.shortyRet = Primitive.byteT
               || Primitive.getType cfg.shortyRet = Primitive.shortT)
          && !(Primitive.getType cfg.shortyRet = Primitive.booleanT
               || Primitive.getType cfg.shortyRet = Primitive.charT) then
    some Err.smallResultBadType
  else if cfg.main.spillsReturnValue
          && !(cfg.main.returnValueSaveLocation < frameSizeAtSpillCheck cfg) then
    some Err.returnSaveLocationRange
  else if !cfg.main.spillsReturnValue
          && (is_fast_native cfg || is_critical_native cfg)
          && cfg.main.sizeOfReturnValue ≠ 0
          && cfg.main.returnRegister ≠ cfg.mr.returnRegister
          && is_critical_native cfg && cfg.main.useTailCall then
    some Err.returnMoveTailCall
  else if !cfg.main.spillsReturnValue
          && (is_fast_native cfg || is_critical_native cfg)
          && cfg.main.sizeOfReturnValue ≠ 0
          && cfg.main.returnRegister = cfg.mr.returnRegister
          && cfg.main.returnRegister = MReg.noReg
          && cfg.main.sizeOfReturnValue ≠ cfg.mr.sizeOfReturnValue then
    some Err.returnSizeMismatch
  else none

/-- `ArtJniCompileMethodInternal` (lines 116-806).  The emitted trace is
`emittedOps`; the source `CHECK`s (and, when `kIsDebugBuild` is set, the
debug-only attribute validations of lines 151-177) abort the compile
with the corresponding `Err`.  The `CHECK(is_native)` of line 123 is
evaluated first, before anything is emitted, in every build mode. -/
def ArtJniCompileMethodInternal (cfg : Config) : Except Err CompileResult :=
  match firstError cfg with
  | some e => Except.error e
  | none => Except.ok (mkResult cfg)

/-- Small helper: a concrete 4-byte core register. -/
def r4 (n : Nat) : MReg := MReg.reg n 4

/-- Sample managed convention oracle for a toy 32-bit stack-passing
architecture. -/
def sampleMr : MrConvOracle :=
  { methodRegister := r4 1
    methodStackOffset := 0
    inRegister := fun _ => false
    paramRegister := fun _ => MReg.noReg
    paramStackOffset := fun i => 4 + 4 * i
    returnRegister := r4 0
    sizeOfReturnValue := 4 }

/-- Sample JNI convention oracle for the same toy architecture. -/
def sampleJni : JniConvOracle :=
  { frameSize := 32
    outFrameSize := 16
    calleeSaveRegisters := [r4 20, r4 21, r4 22]
    calleeSaveScratchRegisters := [r4 20, r4 21, r4 22]
    inRegister := fun _ => false
    paramRegister := fun _ => MReg.noReg
    paramStackOffset := fun j => 4 * j
    paramSize := fun _ => 4
    hiddenArgumentRegister := r4 7
    useTailCall := false
    returnRegister := r4 0
    sizeOfReturnValue := 4
    spillsReturnValue := true
    returnValueSaveLocation := 20
    requiresSmallResultTypeExtension := false
    coreSpillMask := 0
    fpSpillMask := 0 }

/-- Sample compile: instance synchronized plain-native
`(Ljava/lang/Object;)I` on the toy 32-bit architecture. -/
def cfgPlainSync : Config :=
  { kIsDebugBuild := true
    kUseReadBarrier := false
    kUseBakerReadBarrier := false
    kRawPointerSize := 4
    accessFlags := 0x0120
    shortyRet := 'I'
    shortyArgs := ['L']
    mr := sampleMr
    main := sampleJni
    endc := sampleJni }

/-- Sample compile: static critical-native `(I)I` with a non-tail-call
convention. -/
def cfgCritical : Config :=
  { kIsDebugBuild := true
    kUseReadBarrier := false
    kUseBakerReadBarrier := false
    kRawPointerSize := 8
    accessFlags := 0x200108
    shortyRet := 'I'
    shortyArgs := ['I']
    mr := sampleMr
    main := { sampleJni with
              outFrameSize := 0
              calleeSaveRegisters := []
              inRegister := fun _ => true
              paramRegister := fun j => MReg.reg (30 + j) 8
              spillsReturnValue := false
              hiddenArgumentRegister := MReg.reg 7 8
              useTailCall := false }
    endc := sampleJni }

/-- Sample compile: static critical-native `(I)I` with a tail-call
convention. -/
def cfgCriticalTail : Config :=
  { cfgCritical with
    main := { cfgCritical.main with useTailCall := true, sizeOfReturnValue := 0 } }

/-- Sample compile: static fast-native `()Ljava/lang/String;` with read
barriers enabled (Baker variant). -/
def cfgFastRef : Config :=
  { kIsDebugBuild := true
    kUseReadBarrier := true
    kUseBakerReadBarrier := true
    kRawPointerSize := 4
    accessFlags := 0x80108
    shortyRet := 'L'
    shortyArgs := []
    mr := sampleMr
    main := { sampleJni with spillsReturnValue := false }
    endc := { sampleJni with outFrameSize := 16 } }

/-- Sample compile: a method whose access flags lack `kAccNative`, in a
release build. -/
def cfgNotNative : Config :=
  { cfgPlainSync with kIsDebugBuild := false, accessFlags := 0x0008 }

/-- The `JniMethodStart*` entrypoints. -/
def isJniStartEntrypoint : Entrypoint → Bool
  | Entrypoint.pJniMethodStart => true
  | Entrypoint.pJniMethodStartSynchronized => true
  | _ => false

/-- The end-of-method runtime entrypoints: the four `JniMethodEnd*`
variants and `JniDecodeReferenceResult`. -/
def isJniEndEntrypoint : Entrypoint → Bool
  | Entrypoint.pJniMethodEnd => true
  | Entrypoint.pJniMethodEndWithReference => true
  | Entrypoint.pJniMethodEndSynchronized => true
  | Entrypoint.pJniMethodEndWithReferenceSynchronized => true
  | Entrypoint.pJniDecodeReferenceResult => true
  | _ => false

/-- The entrypoint of an operation when it is an end-of-method runtime
call (either through a register or thread-relative). -/
def endCallEp : Op → Option Entrypoint
  | Op.callReg _ ep => if isJniEndEntrypoint ep then some ep else none
  | Op.callFromThread ep => if isJniEndEntrypoint ep then some ep else none
  | _ => none

/-- All end-of-method runtime calls of a trace, in order. -/
def endCalls (t : List Op) : List Entrypoint := t.filterMap endCallEp

/-- Effect of one operation on the CFA offset tracked by the assembler:
`BuildFrame` defines it to the frame size, frame-size changes shift it,
`AdjustCFAOffset` shifts it directly, and `RemoveFrame` restores it
(`RememberState`/`RestoreState`/`DefCFAOffset(frame_size)`). -/
def cfaStep (cfa : Int) : Op → Int
  | Op.buildFrame n _ _ => (n : Int)
  | Op.increaseFrameSize n => cfa + n
  | Op.decreaseFrameSize n => cfa - n
  | Op.adjustCFAOffset d => cfa + d
  | _ => cfa

/-- The tracked CFA offset after a trace, starting from `cfa`. -/
def cfaFold (cfa : Int) (t : List Op) : Int := t.foldl cfaStep cfa

/-- The per-site condition the source `DCHECK_EQ`s: at a `RemoveFrame` the
tracked CFA offset must equal the frame size passed to it (line 703, and
line 709 after it since `RemoveFrame` restores the offset), and at a
`DeliverPendingException` it must equal the `current_frame_size` value at
that site (line 789). -/
def cfaSiteOk (cfa : Int) : Op → Bool
  | Op.removeFrame n _ _ => cfa = (n : Int)
  | Op.deliverPendingException n => cfa = (n : Int)
  | _ => true

/-- Checks `cfaSiteOk` at every position of a trace while folding the
tracked CFA offset. -/
def cfaSitesOk (cfa : Int) : List Op → Bool
  | [] => true
  | op :: rest => cfaSiteOk cfa op && cfaSitesOk (cfaStep cfa op) rest

theorem cfaFold_append (c : Int) (a b : List Op) :
    cfaFold c (a ++ b) = cfaFold (cfaFold c a) b := by
  simp [cfaFold, List.foldl_append]

theorem cfaSitesOk_append (c : Int) (a b : List Op) :
    cfaSitesOk c (a ++ b) = (cfaSitesOk c a && cfaSitesOk (cfaFold c a) b) := by
  induction a generalizing c with
  | nil => simp [cfaSitesOk, cfaFold]
  | cons op rest ih =>
      simp [cfaSitesOk, cfaFold, ih, Bool.and_assoc]

/-- Validity of the method attributes, as enforced by the debug-build
checks of lines 151-177 and assumed of release-build inputs (spec section
on error handling): `@FastNative` and `@CriticalNative` are mutually
exclusive, and critical-native methods are static, unsynchronized and
reference-free. -/
def ValidAttributes (cfg : Config) : Prop :=
  ¬(is_fast_native cfg = true ∧ is_critical_native cfg = true)
  ∧ (is_critical_native cfg = true →
      is_static cfg = true ∧ is_synchronized cfg = false
      ∧ (cfg.shortyRet :: cfg.shortyArgs).all (fun c => !isRefChar c) = true)

/-- Well-formedness of the convention oracles (contract of the calling
convention interfaces): the managed method register is a real register,
the callee-save scratch registers are real registers, and a parameter
reported to be in a register has a real register. -/
def ConvWf (cfg : Config) : Prop :=
  cfg.mr.methodRegister ≠ MReg.noReg
  ∧ (∀ i < 3, cfg.main.calleeSaveScratchRegisters.getD i MReg.noReg ≠ MReg.noReg)
  ∧ (∀ j, cfg.main.inRegister j = true → cfg.main.paramRegister j ≠ MReg.noReg)

theorem compile_ok_firstError {cfg : Config} {res : CompileResult}
    (h : ArtJniCompileMethodInternal cfg = Except.ok res) : firstError cfg = none := by
  unfold ArtJniCompileMethodInternal at h
  cases hfe : firstError cfg with
  | some e => rw [hfe] at h; exact Except.noConfusion h
  | none => rfl

theorem compile_ok_eq {cfg : Config} {res : CompileResult}
    (h : ArtJniCompileMethodInternal cfg = Except.ok res) : res = mkResult cfg := by
  unfold ArtJniCompileMethodInternal at h
  cases hfe : firstError cfg with
  | some e => rw [hfe] at h; exact Except.noConfusion h
  | none => rw [hfe] at h; exact (Except.ok.inj h).symm


/-- C10: for every input whose access flags lack the `kAccNative` bit, the
compile aborts via the `CHECK(is_native)` of line 123 in all build modes
(the theorem does not constrain `kIsDebugBuild`), before any code is
emitted (the result is an error carrying no trace); the check is not
among the debug-only attribute validations. -/
theorem C10_native_check (cfg : Config) (h : cfg.accessFlags &&& kAccNative = 0) :
    ArtJniCompileMethodInternal cfg = Except.error Err.nativeFlagCheck := by
  have hn : is_native cfg = false := by simp [is_native, h]
  unfold ArtJniCompileMethodInternal firstError
  rw [hn]
  rfl

/-- Witness for C10 at a concrete release-mode input. -/
theorem C10_native_check_witness :
    ArtJniCompileMethodInternal cfgNotNative = Except.error Err.nativeFlagCheck :=
  C10_native_check cfgNotNative (by decide)

/-- C3: for every successful compile, the frame size passed to
`BuildFrame` is `main.OutFrameSize()` for critical native and
`main.FrameSize()` otherwise, and the method-register argument is the
empty register for critical native and `mr.MethodRegister()` otherwise
(with `main.CalleeSaveRegisters()` as the callee-save argument);
`BuildFrame` is the first emitted operation. -/
theorem C3_buildFrame {cfg : Config} {res : CompileResult}
    (h : ArtJniCompileMethodInternal cfg = Except.ok res) :
    res.ops.head? = some (Op.buildFrame
      (if is_critical_native cfg then cfg.main.outFrameSize else cfg.main.frameSize)
      (if is_critical_native cfg then MReg.noReg else cfg.mr.methodRegister)
      cfg.main.calleeSaveRegisters) := by
  rcases compile_ok_eq h with rfl
  simp [mkResult, emittedOps, phase1Ops, initialFrameSize,
    methodRegisterInitial, main_out_arg_size, managed_frame_size]

/-- Witness for C3 at a concrete critical-native input. -/
theorem C3_buildFrame_witness :
    (mkResult cfgCritical).ops.head? = some (Op.buildFrame
      (if is_critical_native cfgCritical then cfgCritical.main.outFrameSize
       else cfgCritical.main.frameSize)
      (if is_critical_native cfgCritical then MReg.noReg
       else cfgCritical.mr.methodRegister)
      cfgCritical.main.calleeSaveRegisters) :=
  @C3_buildFrame cfgCritical (mkResult cfgCritical) rfl

/-- C7: for every compile, the shorty used to build the `end` calling
convention is `IL` for a synchronized reference-returning method, `I` for
an unsynchronized reference-returning method, and `V` otherwise
(including synchronized methods with non-reference returns). -/
theorem C7_end_shorty {cfg : Config} {res : CompileResult}
    (h : ArtJniCompileMethodInternal cfg = Except.ok res) :
    res.jniEndShorty =
      (if reference_return cfg && is_synchronized cfg then "IL"
       else if reference_return cfg then "I" else "V") := by
  rcases compile_ok_eq h with rfl
  rfl

/-- Witness for C7 at a concrete synchronized non-reference-return input. -/
theorem C7_end_shorty_witness :
    (mkResult cfgPlainSync).jniEndShorty =
      (if reference_return cfgPlainSync && is_synchronized cfgPlainSync then "IL"
       else if reference_return cfgPlainSync then "I" else "V") :=
  @C7_end_shorty cfgPlainSync (mkResult cfgPlainSync) rfl

/-- C2: in the step 2.2 argument spill plan (emitted only for normal
native), every entry after the `jclass`/`this` head entry satisfies: a
reference whose native destination is on the stack is recorded with
destination size `kRawPointerSize` and reference-spill offset equal to
the argument's managed stack slot; every other argument is copied with
source size 8 for a non-reference long/double and 4 otherwise, the
destination size equals the source size, and a reference bound to a
native register is recorded with the invalid-reference-offset sentinel.
The plan is realized by a single `MoveArguments` in the trace. -/
theorem C2_spill_plan {cfg : Config} {res : CompileResult}
    (h : ArtJniCompileMethodInternal cfg = Except.ok res)
    (hcrit : is_critical_native cfg = false)
    (hfast : is_fast_native cfg = false) :
    (Op.moveArguments
       ((spillPlan cfg (methodRegisterInitial cfg) (frameSizeAfterPrologue cfg)).map
         (fun t => t.2.1))
       ((spillPlan cfg (methodRegisterInitial cfg) (frameSizeAfterPrologue cfg)).map
         (fun t => t.1))
       ((spillPlan cfg (methodRegisterInitial cfg) (frameSizeAfterPrologue cfg)).map
         (fun t => t.2.2)) ∈ res.ops)
    ∧ ∀ i ∈ List.range' (loopStart cfg) (loopCount cfg),
        (mrParamIsReference cfg i = true
            → cfg.main.inRegister (i + loopMainDelta cfg) = false
            → (spillPlanEntry cfg (frameSizeAfterPrologue cfg) i).2.1.size = cfg.kRawPointerSize
              ∧ (spillPlanEntry cfg (frameSizeAfterPrologue cfg) i).2.2
                  = some (mrStackOff cfg (frameSizeAfterPrologue cfg) i))
        ∧ (¬(mrParamIsReference cfg i = true
              ∧ cfg.main.inRegister (i + loopMainDelta cfg) = false)
            → (spillPlanEntry cfg (frameSizeAfterPrologue cfg) i).1.size
                = (if !mrParamIsReference cfg i && mrParamIsLongOrDouble cfg i then 8 else 4)
              ∧ (spillPlanEntry cfg (frameSizeAfterPrologue cfg) i).2.1.size
                  = (spillPlanEntry cfg (frameSizeAfterPrologue cfg) i).1.size
              ∧ (mrParamIsReference cfg i = true
                  → (spillPlanEntry cfg (frameSizeAfterPrologue cfg) i).2.2 = none)) := by
  rcases compile_ok_eq h with rfl
  constructor
  · have h22 : phase22Ops cfg = [Op.moveArguments
       ((spillPlan cfg (methodRegisterInitial cfg) (frameSizeAfterPrologue cfg)).map
         (fun t => t.2.1))
       ((spillPlan cfg (methodRegisterInitial cfg) (frameSizeAfterPrologue cfg)).map
         (fun t => t.1))
       ((spillPlan cfg (methodRegisterInitial cfg) (frameSizeAfterPrologue cfg)).map
         (fun t => t.2.2))] := by
      simp [phase22Ops, hcrit, hfast]
    simp [mkResult, emittedOps, List.mem_append, h22]
  · intro i _
    constructor
    · intro href hstack
      constructor
      · simp [spillPlanEntry, href, hstack, ArgLoc.size]
      · simp [spillPlanEntry, href, hstack]
    · intro hnot
      have key : ∀ hj : cfg.main.inRegister (i + loopMainDelta cfg) = false,
          mrParamIsReference cfg i = false := by
        intro hj
        cases hr2 : mrParamIsReference cfg i with
        | false => rfl
        | true => exact absurd ⟨hr2, hj⟩ hnot
      refine ⟨?_, ?_, ?_⟩
      · cases hj : cfg.main.inRegister (i + loopMainDelta cfg) with
        | false =>
            cases hi : cfg.mr.inRegister i <;>
              simp [spillPlanEntry, key hj, hj, hi, ArgLoc.size]
        | true =>
            cases hi : cfg.mr.inRegister i <;>
              simp [spillPlanEntry, hj, hi, ArgLoc.size]
      · cases hj : cfg.main.inRegister (i + loopMainDelta cfg) with
        | false =>
            cases hi : cfg.mr.inRegister i <;>
              simp [spillPlanEntry, key hj, hj, hi, ArgLoc.size]
        | true =>
            cases hi : cfg.mr.inRegister i <;>
              simp [spillPlanEntry, hj, hi, ArgLoc.size]
      · intro href
        cases hj : cfg.main.inRegister (i + loopMainDelta cfg) with
        | false => exact absurd (key hj) (by simp [href])
        | true => simp [spillPlanEntry, href, hj]

/-- Witness for C2 at a concrete instance `(Ljava/lang/Object;)I` input. -/
theorem C2_spill_plan_witness :
    (Op.moveArguments
       ((spillPlan cfgPlainSync (methodRegisterInitial cfgPlainSync)
           (frameSizeAfterPrologue cfgPlainSync)).map (fun t => t.2.1))
       ((spillPlan cfgPlainSync (methodRegisterInitial cfgPlainSync)
           (frameSizeAfterPrologue cfgPlainSync)).map (fun t => t.1))
       ((spillPlan cfgPlainSync (methodRegisterInitial cfgPlainSync)
           (frameSizeAfterPrologue cfgPlainSync)).map (fun t => t.2.2))
       ∈ (mkResult cfgPlainSync).ops)
    ∧ ∀ i ∈ List.range' (loopStart cfgPlainSync) (loopCount cfgPlainSync),
        (mrParamIsReference cfgPlainSync i = true
            → cfgPlainSync.main.inRegister (i + loopMainDelta cfgPlainSync) = false
            → (spillPlanEntry cfgPlainSync (frameSizeAfterPrologue cfgPlainSync) i).2.1.size
                = cfgPlainSync.kRawPointerSize
              ∧ (spillPlanEntry cfgPlainSync (frameSizeAfterPrologue cfgPlainSync) i).2.2
                  = some (mrStackOff cfgPlainSync (frameSizeAfterPrologue cfgPlainSync) i))
        ∧ (¬(mrParamIsReference cfgPlainSync i = true
              ∧ cfgPlainSync.main.inRegister (i + loopMainDelta cfgPlainSync) = false)
            → (spillPlanEntry cfgPlainSync (frameSizeAfterPrologue cfgPlainSync) i).1.size
                = (if !mrParamIsReference cfgPlainSync i
                      && mrParamIsLongOrDouble cfgPlainSync i then 8 else 4)
              ∧ (spillPlanEntry cfgPlainSync (frameSizeAfterPrologue cfgPlainSync) i).2.1.size
                  = (spillPlanEntry cfgPlainSync (frameSizeAfterPrologue cfgPlainSync) i).1.size
              ∧ (mrParamIsReference cfgPlainSync i = true
                  → (spillPlanEntry cfgPlainSync
                      (frameSizeAfterPrologue cfgPlainSync) i).2.2 = none)) :=
  @C2_spill_plan cfgPlainSync (mkResult cfgPlainSync) rfl (by decide) (by decide)

theorem endCalls_append (a b : List Op) : endCalls (a ++ b) = endCalls a ++ endCalls b := by
  simp [endCalls, List.filterMap_append]

theorem endCalls_SetNativeParameterOps (conv : JniConvOracle) (disp idx : Nat) (rg : MReg) :
    endCalls (SetNativeParameterOps conv disp idx rg) = [] := by
  unfold SetNativeParameterOps
  split_ifs <;> rfl

theorem endCalls_phase1 (cfg : Config) : endCalls (phase1Ops cfg) = [] := by
  unfold phase1Ops
  split_ifs <;> rfl

theorem endCalls_phase21 (cfg : Config) : endCalls (phase21Ops cfg) = [] := by
  unfold phase21Ops
  split_ifs <;> rfl

theorem endCalls_phase22 (cfg : Config) : endCalls (phase22Ops cfg) = [] := by
  unfold phase22Ops
  split_ifs <;> rfl

theorem endCalls_phase23 (cfg : Config) : endCalls (phase23Ops cfg) = [] := by
  unfold phase23Ops GetJniEntrypointThreadOffset SetNativeParameterOps
  split_ifs <;>
    simp [endCalls, endCallEp, isJniEndEntrypoint, apply_ite (List.filterMap endCallEp)]

theorem endCalls_phase3 (cfg : Config) : endCalls (phase3Ops cfg) = [] := by
  unfold phase3Ops PushLocalReferenceFrameOps
  split_ifs <;> rfl

theorem endCalls_phase41 (cfg : Config) : endCalls (phase41Ops cfg) = [] := by
  unfold phase41Ops
  split_ifs <;> rfl

theorem endCalls_phase42 (cfg : Config) : endCalls (phase42Ops cfg) = [] := by
  unfold phase42Ops
  split_ifs <;> rfl

theorem endCalls_phase43 (cfg : Config) : endCalls (phase43Ops cfg) = [] := by
  unfold phase43Ops
  split_ifs <;> rfl

theorem endCalls_phase44 (cfg : Config) : endCalls (phase44Ops cfg) = [] := by
  unfold phase44Ops
  split_ifs <;> simp [endCalls, endCallEp, apply_ite (List.filterMap endCallEp)]

theorem endCalls_phase51 (cfg : Config) : endCalls (phase51Ops cfg) = [] := by
  unfold phase51Ops
  split_ifs <;> rfl

theorem endCalls_phase5253 (cfg : Config) : endCalls (phase5253Ops cfg) = [] := by
  unfold phase5253Ops
  split_ifs <;> rfl

theorem endCalls_phase6 (cfg : Config) : endCalls (phase6Ops cfg) = [] := by
  unfold phase6Ops PopLocalReferenceFrameOps
  split_ifs <;> rfl

theorem endCalls_phase7 (cfg : Config) : endCalls (phase7Ops cfg) = [] := by
  unfold phase7Ops
  split_ifs <;> rfl

theorem endCalls_phase81 (cfg : Config) : endCalls (phase81Ops cfg) = [] := by
  unfold phase81Ops
  split_ifs <;> rfl

theorem endCalls_phase82 (cfg : Config) : endCalls (phase82Ops cfg) = [] := by
  unfold phase82Ops
  split_ifs <;> rfl

theorem endCalls_phase83 (cfg : Config) : endCalls (phase83Ops cfg) = [] := by
  unfold phase83Ops PopLocalReferenceFrameOps
  split_ifs <;> rfl

theorem endCalls_phase5456 (cfg : Config) (hcrit : is_critical_native cfg = false) :
    endCalls (phase5456Ops cfg) =
      (if is_fast_native cfg then
         (if reference_return cfg then [Entrypoint.pJniDecodeReferenceResult] else [])
       else
         [if is_synchronized cfg then
            (if reference_return cfg then Entrypoint.pJniMethodEndWithReferenceSynchronized
             else Entrypoint.pJniMethodEndSynchronized)
          else
            (if reference_return cfg then Entrypoint.pJniMethodEndWithReference
             else Entrypoint.pJniMethodEnd)]) := by
  have h54 : endCalls (phase54Ops cfg) = [] := by
    unfold phase54Ops; split_ifs <;> rfl
  have h56 : endCalls (phase56Ops cfg) = [] := by
    unfold phase56Ops; split_ifs <;> rfl
  have hret : endCalls (endRetOps cfg) = [] := by
    unfold endRetOps; split_ifs
    · exact endCalls_SetNativeParameterOps _ _ _ _
    · rfl
  have hlock : endCalls (endLockOps cfg) = [] := by
    unfold endLockOps; split_ifs <;> rfl
  have hend : isJniEndEntrypoint (jniEndEp cfg) = true := by
    unfold jniEndEp GetJniEntrypointThreadOffset
    split_ifs <;> rfl
  have hcall : endCalls (endCallSeqOps cfg) = [jniEndEp cfg] := by
    unfold endCallSeqOps
    split_ifs <;> simp [endCalls, endCallEp, hend]
  have h55 : endCalls (phase55Ops cfg) =
      (if !is_fast_native cfg || reference_return cfg then [jniEndEp cfg] else []) := by
    unfold phase55Ops
    split_ifs
    · simp [endCalls_append, hret, hlock, hcall]
    · rfl
  have hsplit : phase5456Ops cfg = phase54Ops cfg ++ phase55Ops cfg ++ phase56Ops cfg := by
    simp [phase5456Ops, hcrit]
  rw [hsplit, endCalls_append, endCalls_append, h54, h55, h56]
  unfold jniEndEp GetJniEntrypointThreadOffset
  cases hf : is_fast_native cfg with
  | true => cases hr : reference_return cfg <;> simp
  | false =>
      cases hr : reference_return cfg <;> cases hsy : is_synchronized cfg <;> simp

/-- C1: for every non-critical-native compile, the end-of-method runtime
call selection: for fast-native, an end call is emitted if and only if
the return is a reference, and its entrypoint is
`pJniDecodeReferenceResult`; otherwise exactly one end call is emitted,
with `pJniMethodEnd` when neither synchronized nor reference-returning,
`pJniMethodEndWithReference` when reference-returning only,
`pJniMethodEndSynchronized` when synchronized only, and
`pJniMethodEndWithReferenceSynchronized` when both. -/
theorem C1_end_call_selection {cfg : Config} {res : CompileResult}
    (h : ArtJniCompileMethodInternal cfg = Except.ok res)
    (hcrit : is_critical_native cfg = false) :
    endCalls res.ops =
      (if is_fast_native cfg then
         (if reference_return cfg then [Entrypoint.pJniDecodeReferenceResult] else [])
       else
         [if is_synchronized cfg then
            (if reference_return cfg then Entrypoint.pJniMethodEndWithReferenceSynchronized
             else Entrypoint.pJniMethodEndSynchronized)
          else
            (if reference_return cfg then Entrypoint.pJniMethodEndWithReference
             else Entrypoint.pJniMethodEnd)]) := by
  rcases compile_ok_eq h with rfl
  have hops : (mkResult cfg).ops = emittedOps cfg := rfl
  rw [hops]
  unfold emittedOps
  rw [endCalls_append, endCalls_append, endCalls_append, endCalls_append, endCalls_append,
    endCalls_append, endCalls_append, endCalls_append, endCalls_append, endCalls_append,
    endCalls_append, endCalls_append, endCalls_append, endCalls_append, endCalls_append,
    endCalls_append]
  rw [endCalls_phase1, endCalls_phase21, endCalls_phase22, endCalls_phase23, endCalls_phase3,
    endCalls_phase41, endCalls_phase42, endCalls_phase43, endCalls_phase44, endCalls_phase51,
    endCalls_phase5253, endCalls_phase5456 cfg hcrit, endCalls_phase6, endCalls_phase7,
    endCalls_phase81, endCalls_phase82, endCalls_phase83]
  simp

/-- Witness for C1 at a concrete synchronized plain-native input. -/
theorem C1_end_call_selection_witness :
    endCalls (mkResult cfgPlainSync).ops =
      (if is_fast_native cfgPlainSync then
         (if reference_return cfgPlainSync then [Entrypoint.pJniDecodeReferenceResult] else [])
       else
         [if is_synchronized cfgPlainSync then
            (if reference_return cfgPlainSync then
               Entrypoint.pJniMethodEndWithReferenceSynchronized
             else Entrypoint.pJniMethodEndSynchronized)
          else
            (if reference_return cfgPlainSync then Entrypoint.pJniMethodEndWithReference
             else Entrypoint.pJniMethodEnd)]) :=
  @C1_end_call_selection cfgPlainSync (mkResult cfgPlainSync) rfl (by decide)

/-- Characterization of the emitted trace for critical-native methods:
only the frame build, the argument move with the hidden-argument entry,
the native jump or call, the result fix-ups, the (possibly empty)
fast-native chunks and the conditional frame removal remain. -/
theorem crit_ops (cfg : Config) (hcrit : is_critical_native cfg = true) :
    emittedOps cfg =
      [Op.buildFrame (main_out_arg_size cfg) MReg.noReg cfg.main.calleeSaveRegisters]
      ++ phase41Ops cfg
      ++ phase43Ops cfg ++ phase44Ops cfg ++ phase51Ops cfg ++ phase5253Ops cfg
      ++ (if is_fast_native cfg && !reference_return cfg then
            [Op.suspendCheck Label.suspendCheckSlowPath, Op.bindLabel Label.suspendCheckResume]
          else [])
      ++ (if !cfg.main.useTailCall then
            [Op.removeFrame (frameSizeFinal cfg) cfg.main.calleeSaveRegisters false] else [])
      ++ phase82Ops cfg := by
  unfold emittedOps phase1Ops phase21Ops phase22Ops phase23Ops phase3Ops phase42Ops
    phase5456Ops phase6Ops phase7Ops phase81Ops phase83Ops
  simp [hcrit, initialFrameSize, methodRegisterInitial]

/-- Operation shapes that can occur in step 4.1. -/
def p41Shape : Op → Bool
  | Op.move _ _ _ => true
  | Op.load _ _ _ => true
  | Op.moveArguments _ _ _ => true
  | _ => false

/-- Operation shapes that can occur in step 4.3. -/
def p43Shape : Op → Bool
  | Op.jumpMethodEntrypoint _ => true
  | Op.callMethodEntrypoint _ => true
  | _ => false

/-- Operation shapes that can occur in step 4.4. -/
def p44Shape : Op → Bool
  | Op.signExtend _ _ => true
  | Op.zeroExtend _ _ => true
  | _ => false

/-- Operation shapes that can occur in step 5.1. -/
def p51Shape : Op → Bool
  | Op.store _ _ _ => true
  | Op.move _ _ _ => true
  | _ => false

/-- Operation shapes that can occur in steps 5.2-5.3. -/
def p5253Shape : Op → Bool
  | Op.exceptionPoll _ => true
  | Op.suspendCheck _ => true
  | Op.bindLabel _ => true
  | _ => false

/-- Operation shapes that can occur in the step 8.2 slow path. -/
def p82Shape : Op → Bool
  | Op.bindLabel _ => true
  | Op.adjustCFAOffset _ => true
  | Op.decreaseFrameSize _ => true
  | Op.increaseFrameSize _ => true
  | Op.callFromThread ep => !(isJniStartEntrypoint ep || isJniEndEntrypoint ep)
  | Op.storeStackPointerToThread => true
  | Op.jumpLabel _ => true
  | _ => false

theorem mem_phase41_shape {cfg : Config} {op : Op} (hop : op ∈ phase41Ops cfg) :
    p41Shape op = true := by
  unfold phase41Ops at hop
  split_ifs at hop <;> simp at hop <;>
    first
      | (subst hop; rfl)
      | (rcases hop with rfl | rfl <;> rfl)

theorem mem_phase43_shape {cfg : Config} {op : Op} (hop : op ∈ phase43Ops cfg) :
    p43Shape op = true := by
  unfold phase43Ops at hop
  split_ifs at hop <;> simp at hop <;> subst hop <;> rfl

theorem mem_phase44_shape {cfg : Config} {op : Op} (hop : op ∈ phase44Ops cfg) :
    p44Shape op = true := by
  unfold phase44Ops at hop
  split_ifs at hop <;> simp at hop <;>
    first
      | (subst hop; rfl)
      | exact hop.elim
      | (rcases hop with rfl | rfl <;> rfl)

theorem mem_phase51_shape {cfg : Config} {op : Op} (hop : op ∈ phase51Ops cfg) :
    p51Shape op = true := by
  unfold phase51Ops at hop
  split_ifs at hop <;> simp at hop <;>
    first
      | (subst hop; rfl)
      | exact hop.elim
      | (rcases hop with rfl | rfl <;> rfl)

theorem mem_phase5253_shape {cfg : Config} {op : Op} (hop : op ∈ phase5253Ops cfg) :
    p5253Shape op = true := by
  unfold phase5253Ops at hop
  split_ifs at hop <;> simp at hop <;>
    first
      | (subst hop; rfl)
      | exact hop.elim
      | (rcases hop with rfl | rfl | rfl <;> rfl)

theorem mem_phase82_shape {cfg : Config} {op : Op} (hop : op ∈ phase82Ops cfg) :
    p82Shape op = true := by
  unfold phase82Ops at hop
  split_ifs at hop <;> simp at hop <;>
    first
      | (subst hop; rfl)
      | exact hop.elim
      | (rcases hop with rfl | rfl <;> rfl)
      | (rcases hop with rfl | rfl | rfl <;> rfl)
      | (rcases hop with rfl | rfl | rfl | rfl <;> rfl)
      | (rcases hop with rfl | rfl | rfl | rfl | rfl <;> rfl)
      | (rcases hop with rfl | rfl | rfl | rfl | rfl | rfl <;> rfl)
      | (rcases hop with rfl | rfl | rfl | rfl | rfl | rfl | rfl <;> rfl)
      | (rcases hop with rfl | rfl | rfl | rfl | rfl | rfl | rfl | rfl <;> rfl)

/-- Every operation of a critical-native trace is the frame build, an
argument move, the native jump or call through the hidden argument
register, a result fix-up, a fast-native-only chunk (only reachable in a
release build with invalid attribute combinations), or the conditional
frame removal. -/
theorem crit_mem_shape {cfg : Config} {op : Op}
    (hcrit : is_critical_native cfg = true) (hop : op ∈ emittedOps cfg) :
    op = Op.buildFrame (main_out_arg_size cfg) MReg.noReg cfg.main.calleeSaveRegisters
    ∨ p41Shape op = true
    ∨ (cfg.main.useTailCall = true
        ∧ op = Op.jumpMethodEntrypoint cfg.main.hiddenArgumentRegister)
    ∨ (cfg.main.useTailCall = false
        ∧ op = Op.callMethodEntrypoint cfg.main.hiddenArgumentRegister)
    ∨ p44Shape op = true ∨ p51Shape op = true
    ∨ (is_fast_native cfg = true ∧ p5253Shape op = true)
    ∨ op = Op.suspendCheck Label.suspendCheckSlowPath
    ∨ op = Op.bindLabel Label.suspendCheckResume
    ∨ (cfg.main.useTailCall = false
        ∧ op = Op.removeFrame (frameSizeFinal cfg) cfg.main.calleeSaveRegisters false)
    ∨ (is_fast_native cfg = true ∧ p82Shape op = true) := by
  rw [crit_ops cfg hcrit] at hop
  simp only [List.mem_append, List.mem_singleton] at hop
  rcases hop with ((((((((h | h) | h) | h) | h) | h) | h) | h) | h)
  · tauto
  · have := mem_phase41_shape h
    tauto
  · have h43 := h
    simp only [phase43Ops, hcrit, if_true] at h43
    rcases Bool.eq_false_or_eq_true cfg.main.useTailCall with ht | ht
    · rw [ht] at h43
      simp at h43
      tauto
    · rw [ht] at h43
      simp at h43
      tauto
  · have := mem_phase44_shape h
    tauto
  · have := mem_phase51_shape h
    tauto
  · rcases Bool.eq_false_or_eq_true (is_fast_native cfg) with hx | hx
    · have := mem_phase5253_shape h
      tauto
    · simp [phase5253Ops, hx] at h
  · revert h
    split_ifs with hc
    · intro h
      simp only [List.mem_cons, List.mem_singleton, List.not_mem_nil, or_false] at h
      tauto
    · intro h
      exact absurd h (List.not_mem_nil op)
  · revert h
    split_ifs with hc
    · intro h
      simp only [List.mem_singleton] at h
      have hc2 : cfg.main.useTailCall = false := by
        rcases Bool.eq_false_or_eq_true cfg.main.useTailCall with hx | hx
        · rw [hx] at hc
          simp at hc
        · exact hx
      tauto
    · intro h
      exact absurd h (List.not_mem_nil op)
  · rcases Bool.eq_false_or_eq_true (is_fast_native cfg) with hx | hx
    · have := mem_phase82_shape h
      tauto
    · simp [phase82Ops, hx] at h

theorem mem_emitted_p22 {cfg : Config} {op : Op} (h : op ∈ phase22Ops cfg) :
    op ∈ emittedOps cfg := by
  unfold emittedOps
  simp only [List.mem_append]
  exact Or.inl (Or.inl (Or.inl (Or.inl (Or.inl (Or.inl (Or.inl (Or.inl (Or.inl (Or.inl
    (Or.inl (Or.inl (Or.inl (Or.inl (Or.inr h))))))))))))))

theorem mem_emitted_p3 {cfg : Config} {op : Op} (h : op ∈ phase3Ops cfg) :
    op ∈ emittedOps cfg := by
  unfold emittedOps
  simp only [List.mem_append]
  exact Or.inl (Or.inl (Or.inl (Or.inl (Or.inl (Or.inl (Or.inl (Or.inl (Or.inl (Or.inl
    (Or.inl (Or.inl (Or.inr h))))))))))))

theorem mem_emitted_p6 {cfg : Config} {op : Op} (h : op ∈ phase6Ops cfg) :
    op ∈ emittedOps cfg := by
  unfold emittedOps
  simp only [List.mem_append]
  exact Or.inl (Or.inl (Or.inl (Or.inl (Or.inr h))))

theorem mem_emitted_p7 {cfg : Config} {op : Op} (h : op ∈ phase7Ops cfg) :
    op ∈ emittedOps cfg := by
  unfold emittedOps
  simp only [List.mem_append]
  exact Or.inl (Or.inl (Or.inl (Or.inr h)))

/-- C6: for every critical-native compile whose main convention uses the
tail-call ABI, the native entry is reached via a `Jump` through the
hidden argument register rather than a `Call`, and no `RemoveFrame` is
emitted; in every other case
`RemoveFrame(current_frame_size, callee_saves, may_suspend = not
critical-native)` is emitted, where `current_frame_size` at that point is
`main.OutFrameSize()` for critical native and `main.FrameSize()`
otherwise. -/
theorem C6_tail_call {cfg : Config} {res : CompileResult}
    (h : ArtJniCompileMethodInternal cfg = Except.ok res) :
    ((is_critical_native cfg = true ∧ cfg.main.useTailCall = true) →
       Op.jumpMethodEntrypoint cfg.main.hiddenArgumentRegister ∈ res.ops
       ∧ (∀ n cs ms, Op.removeFrame n cs ms ∉ res.ops)
       ∧ (∀ rg, Op.callMethodEntrypoint rg ∉ res.ops))
    ∧ (¬(is_critical_native cfg = true ∧ cfg.main.useTailCall = true) →
       (Op.removeFrame (frameSizeFinal cfg) cfg.main.calleeSaveRegisters
         (!is_critical_native cfg) ∈ res.ops)
       ∧ frameSizeFinal cfg
           = (if is_critical_native cfg then cfg.main.outFrameSize
              else cfg.main.frameSize)) := by
  rcases compile_ok_eq h with rfl
  have hops : (mkResult cfg).ops = emittedOps cfg := rfl
  constructor
  · rintro ⟨hcrit, htail⟩
    rw [hops]
    have h43 : phase43Ops cfg
        = [Op.jumpMethodEntrypoint cfg.main.hiddenArgumentRegister] := by
      simp [phase43Ops, hcrit, htail]
    refine ⟨?_, ?_, ?_⟩
    · rw [crit_ops cfg hcrit]
      simp [List.mem_append, h43]
    · intro n cs ms hmem
      rcases crit_mem_shape hcrit hmem with hs|hs|hs|hs|hs|hs|hs|hs|hs|hs|hs <;>
        simp_all [p41Shape, p44Shape, p51Shape, p5253Shape, p82Shape]
    · intro rg hmem
      rcases crit_mem_shape hcrit hmem with hs|hs|hs|hs|hs|hs|hs|hs|hs|hs|hs <;>
        simp_all [p41Shape, p44Shape, p51Shape, p5253Shape, p82Shape]
  · intro hnotct
    constructor
    · rw [hops]
      have hguard : (!is_critical_native cfg || !cfg.main.useTailCall) = true := by
        rcases Bool.eq_false_or_eq_true (is_critical_native cfg) with hc | hc
        · rcases Bool.eq_false_or_eq_true cfg.main.useTailCall with ht | ht
          · exact absurd ⟨hc, ht⟩ hnotct
          · simp [ht]
        · simp [hc]
      have h7 : Op.removeFrame (frameSizeFinal cfg) cfg.main.calleeSaveRegisters
          (!is_critical_native cfg) ∈ phase7Ops cfg := by
        unfold phase7Ops
        simp [hguard, List.mem_append]
      exact mem_emitted_p7 h7
    · rcases Bool.eq_false_or_eq_true (is_critical_native cfg) with hc | hc
      · simp [frameSizeFinal, frameSizeAtEndCall, endGrows, hc, frameSizeAfterPrologue,
          initialFrameSize, main_out_arg_size]
      · by_cases hg : cfg.endc.outFrameSize > cfg.main.outFrameSize
        · simp [frameSizeFinal, frameSizeAtEndCall, currentOutArgSizeFinal, endGrows,
            outArgSizeDiff, frameSizeAfterPrologue, initialFrameSize, main_out_arg_size,
            managed_frame_size, hc, hg]
          omega
        · simp [frameSizeFinal, frameSizeAtEndCall, currentOutArgSizeFinal, endGrows,
            outArgSizeDiff, frameSizeAfterPrologue, initialFrameSize, main_out_arg_size,
            managed_frame_size, hc, hg]

/-- Witness for C6 at a concrete critical-native tail-call input. -/
theorem C6_tail_call_witness :
    ((is_critical_native cfgCriticalTail = true
        ∧ cfgCriticalTail.main.useTailCall = true) →
       Op.jumpMethodEntrypoint cfgCriticalTail.main.hiddenArgumentRegister
           ∈ (mkResult cfgCriticalTail).ops
       ∧ (∀ n cs ms, Op.removeFrame n cs ms ∉ (mkResult cfgCriticalTail).ops)
       ∧ (∀ rg, Op.callMethodEntrypoint rg ∉ (mkResult cfgCriticalTail).ops))
    ∧ (¬(is_critical_native cfgCriticalTail = true
          ∧ cfgCriticalTail.main.useTailCall = true) →
       (Op.removeFrame (frameSizeFinal cfgCriticalTail)
         cfgCriticalTail.main.calleeSaveRegisters
         (!is_critical_native cfgCriticalTail) ∈ (mkResult cfgCriticalTail).ops)
       ∧ frameSizeFinal cfgCriticalTail
           = (if is_critical_native cfgCriticalTail then cfgCriticalTail.main.outFrameSize
              else cfgCriticalTail.main.frameSize)) :=
  @C6_tail_call cfgCriticalTail (mkResult cfgCriticalTail) rfl

/-- Operations forbidden in a critical-native stub: `CreateJObject`
reference conversions, `JniMethodStart*`/`JniMethodEnd*` (and
`JniDecodeReferenceResult`) runtime calls, the JNI-environment load, the
local-reference-frame push/pop constituents, and `ExceptionPoll`. -/
def criticalForbidden : Op → Bool
  | Op.createJObjectStack _ _ => true
  | Op.createJObjectReg _ _ => true
  | Op.callReg _ ep => isJniStartEntrypoint ep || isJniEndEntrypoint ep
  | Op.callFromThread ep => isJniStartEntrypoint ep || isJniEndEntrypoint ep
  | Op.loadRawPtrFromThread _ => true
  | Op.loadEnvField _ _ _ => true
  | Op.storeEnvField _ _ _ => true
  | Op.exceptionPoll _ => true
  | _ => false

/-- C4: for every critical-native compile (with the attribute validity
the debug build enforces), the emitted sequence contains no
`CreateJObject` conversion, no `JniMethodStart*`/`JniMethodEnd*` runtime
call, no JNI-environment load, no local-reference-frame push or pop
operation, and no `ExceptionPoll`. -/
theorem C4_critical_no_transition {cfg : Config} {res : CompileResult}
    (h : ArtJniCompileMethodInternal cfg = Except.ok res)
    (hcrit : is_critical_native cfg = true)
    (hva : ValidAttributes cfg) :
    ∀ op ∈ res.ops, criticalForbidden op = false := by
  rcases compile_ok_eq h with rfl
  have hfast : is_fast_native cfg = false := by
    rcases Bool.eq_false_or_eq_true (is_fast_native cfg) with hf | hf
    · exact absurd ⟨hf, hcrit⟩ hva.1
    · exact hf
  intro op hop
  rcases crit_mem_shape hcrit hop with hs|hs|hs|hs|hs|hs|hs|hs|hs|hs|hs
  · subst hs; rfl
  · cases op <;> simp_all [p41Shape, criticalForbidden]
  · rcases hs with ⟨-, rfl⟩; rfl
  · rcases hs with ⟨-, rfl⟩; rfl
  · cases op <;> simp_all [p44Shape, criticalForbidden]
  · cases op <;> simp_all [p51Shape, criticalForbidden]
  · exact absurd hs.1 (by simp [hfast])
  · subst hs; rfl
  · subst hs; rfl
  · rcases hs with ⟨-, rfl⟩; rfl
  · exact absurd hs.1 (by simp [hfast])

/-- Witness for C4 at a concrete critical-native input. -/
theorem C4_critical_no_transition_witness :
    (mkResult cfgCritical).ops.all (fun op => !criticalForbidden op) = true := by
  have hall := @C4_critical_no_transition cfgCritical (mkResult cfgCritical) rfl (by decide)
    ⟨by decide, fun _ => ⟨by decide, by decide, by decide⟩⟩
  rw [List.all_eq_true]
  intro op hop
  simp [hall op hop]

/-- C5: for every compile, a `PushLocalReferenceFrame` sequence appears
in the trace if and only if a `PopLocalReferenceFrame` sequence does,
and both are elided exactly when the method is critical-native. -/
theorem C5_lrf_balance {cfg : Config} {res : CompileResult}
    (h : ArtJniCompileMethodInternal cfg = Except.ok res) :
    (List.IsInfix (PushLocalReferenceFrameOps (jniEnvReg cfg) (savedCookieReg cfg)
        (calleeSaveTemp cfg)) res.ops
       ↔ List.IsInfix (PopLocalReferenceFrameOps (jniEnvReg cfg) (savedCookieReg cfg)
        (calleeSaveTemp cfg)) res.ops)
    ∧ (List.IsInfix (PushLocalReferenceFrameOps (jniEnvReg cfg) (savedCookieReg cfg)
        (calleeSaveTemp cfg)) res.ops
       ↔ is_critical_native cfg = false) := by
  rcases compile_ok_eq h with rfl
  have hops : (mkResult cfg).ops = emittedOps cfg := rfl
  rw [hops]
  rcases Bool.eq_false_or_eq_true (is_critical_native cfg) with hc | hc
  · have hnopush : ¬ List.IsInfix (PushLocalReferenceFrameOps (jniEnvReg cfg)
        (savedCookieReg cfg) (calleeSaveTemp cfg)) (emittedOps cfg) := by
      intro hinf
      have hmem : Op.loadEnvField (savedCookieReg cfg) (jniEnvReg cfg)
          EnvField.localRefCookie ∈ emittedOps cfg :=
        hinf.subset (by simp [PushLocalReferenceFrameOps])
      rcases crit_mem_shape hc hmem with hs|hs|hs|hs|hs|hs|hs|hs|hs|hs|hs <;>
        simp_all [p41Shape, p44Shape, p51Shape, p5253Shape, p82Shape]
    have hnopop : ¬ List.IsInfix (PopLocalReferenceFrameOps (jniEnvReg cfg)
        (savedCookieReg cfg) (calleeSaveTemp cfg)) (emittedOps cfg) := by
      intro hinf
      have hmem : Op.loadEnvField (calleeSaveTemp cfg) (jniEnvReg cfg)
          EnvField.localRefCookie ∈ emittedOps cfg :=
        hinf.subset (by simp [PopLocalReferenceFrameOps])
      rcases crit_mem_shape hc hmem with hs|hs|hs|hs|hs|hs|hs|hs|hs|hs|hs <;>
        simp_all [p41Shape, p44Shape, p51Shape, p5253Shape, p82Shape]
    exact ⟨iff_of_false hnopush hnopop, iff_of_false hnopush (by simp [hc])⟩
  · have hpush : List.IsInfix (PushLocalReferenceFrameOps (jniEnvReg cfg)
        (savedCookieReg cfg) (calleeSaveTemp cfg)) (emittedOps cfg) :=
      ⟨phase1Ops cfg ++ phase21Ops cfg ++ phase22Ops cfg ++ phase23Ops cfg
         ++ [Op.loadRawPtrFromThread (jniEnvReg cfg)],
       phase41Ops cfg ++ phase42Ops cfg ++ phase43Ops cfg ++ phase44Ops cfg
         ++ phase51Ops cfg ++ phase5253Ops cfg ++ phase5456Ops cfg ++ phase6Ops cfg
         ++ phase7Ops cfg ++ phase81Ops cfg ++ phase82Ops cfg ++ phase83Ops cfg,
       by simp [emittedOps, phase3Ops, hc, List.append_assoc]⟩
    have hpop : List.IsInfix (PopLocalReferenceFrameOps (jniEnvReg cfg)
        (savedCookieReg cfg) (calleeSaveTemp cfg)) (emittedOps cfg) :=
      ⟨phase1Ops cfg ++ phase21Ops cfg ++ phase22Ops cfg ++ phase23Ops cfg
         ++ phase3Ops cfg ++ phase41Ops cfg ++ phase42Ops cfg ++ phase43Ops cfg
         ++ phase44Ops cfg ++ phase51Ops cfg ++ phase5253Ops cfg ++ phase5456Ops cfg,
       phase7Ops cfg ++ phase81Ops cfg ++ phase82Ops cfg ++ phase83Ops cfg,
       by simp [emittedOps, phase6Ops, hc, List.append_assoc]⟩
    exact ⟨iff_of_true hpush hpop, iff_of_true hpush hc⟩

/-- Witness for C5 at a concrete plain-native input. -/
theorem C5_lrf_balance_witness :
    (List.IsInfix (PushLocalReferenceFrameOps (jniEnvReg cfgPlainSync)
        (savedCookieReg cfgPlainSync) (calleeSaveTemp cfgPlainSync))
        (mkResult cfgPlainSync).ops
       ↔ List.IsInfix (PopLocalReferenceFrameOps (jniEnvReg cfgPlainSync)
        (savedCookieReg cfgPlainSync) (calleeSaveTemp cfgPlainSync))
        (mkResult cfgPlainSync).ops)
    ∧ (List.IsInfix (PushLocalReferenceFrameOps (jniEnvReg cfgPlainSync)
        (savedCookieReg cfgPlainSync) (calleeSaveTemp cfgPlainSync))
        (mkResult cfgPlainSync).ops
       ↔ is_critical_native cfgPlainSync = false) :=
  @C5_lrf_balance cfgPlainSync (mkResult cfgPlainSync) rfl

theorem cfaSitesOk_append_of {c c2 : Int} {a b : List Op}
    (ha : cfaSitesOk c a = true) (hfold : cfaFold c a = c2)
    (hb : cfaSitesOk c2 b = true) : cfaSitesOk c (a ++ b) = true := by
  rw [cfaSitesOk_append, ha, hfold, hb]
  rfl

theorem cfa_neutral_SetNativeParameterOps (conv : JniConvOracle) (disp idx : Nat)
    (rg : MReg) (c : Int) :
    cfaFold c (SetNativeParameterOps conv disp idx rg) = c
    ∧ cfaSitesOk c (SetNativeParameterOps conv disp idx rg) = true := by
  unfold SetNativeParameterOps
  split_ifs <;>
    simp [cfaFold, cfaSitesOk, cfaSiteOk, cfaStep, List.foldl_cons, List.foldl_nil]

theorem cfa_neutral_PushLRF (a b c2 : MReg) (c : Int) :
    cfaFold c (PushLocalReferenceFrameOps a b c2) = c
    ∧ cfaSitesOk c (PushLocalReferenceFrameOps a b c2) = true := by
  simp [PushLocalReferenceFrameOps, cfaFold, cfaSitesOk, cfaSiteOk, cfaStep,
    List.foldl_cons, List.foldl_nil]

theorem cfa_neutral_PopLRF (a b c2 : MReg) (c : Int) :
    cfaFold c (PopLocalReferenceFrameOps a b c2) = c
    ∧ cfaSitesOk c (PopLocalReferenceFrameOps a b c2) = true := by
  simp [PopLocalReferenceFrameOps, cfaFold, cfaSitesOk, cfaSiteOk, cfaStep,
    List.foldl_cons, List.foldl_nil]

theorem cfa_phase1 (cfg : Config) :
    cfaFold 0 (phase1Ops cfg) = (initialFrameSize cfg : Int)
    ∧ cfaSitesOk 0 (phase1Ops cfg) = true := by
  unfold phase1Ops
  split_ifs <;>
    simp [cfaFold, cfaSitesOk, cfaSiteOk, cfaStep, List.foldl_cons, List.foldl_nil]

theorem cfa_phase21 (cfg : Config) :
    cfaFold (initialFrameSize cfg : Int) (phase21Ops cfg)
      = (frameSizeAfterPrologue cfg : Int)
    ∧ cfaSitesOk (initialFrameSize cfg : Int) (phase21Ops cfg) = true := by
  unfold phase21Ops frameSizeAfterPrologue
  split_ifs with hc <;>
    simp [cfaFold, cfaSitesOk, cfaSiteOk, cfaStep, List.foldl_cons, List.foldl_nil, hc]

theorem cfa_phase22 (cfg : Config) (c : Int) :
    cfaFold c (phase22Ops cfg) = c ∧ cfaSitesOk c (phase22Ops cfg) = true := by
  unfold phase22Ops
  split_ifs <;>
    simp [cfaFold, cfaSitesOk, cfaSiteOk, cfaStep, List.foldl_cons, List.foldl_nil]

theorem cfa_phase23 (cfg : Config) (c : Int) :
    cfaFold c (phase23Ops cfg) = c ∧ cfaSitesOk c (phase23Ops cfg) = true := by
  unfold phase23Ops SetNativeParameterOps
  split_ifs <;>
    simp [cfaFold, cfaSitesOk, cfaSiteOk, cfaStep, List.foldl_cons, List.foldl_nil,
      List.foldl_append] <;>
    split_ifs <;>
    simp [cfaFold, cfaSitesOk, cfaSiteOk, cfaStep, List.foldl_cons, List.foldl_nil,
      List.foldl_append]

theorem cfa_phase3 (cfg : Config) (c : Int) :
    cfaFold c (phase3Ops cfg) = c ∧ cfaSitesOk c (phase3Ops cfg) = true := by
  unfold phase3Ops PushLocalReferenceFrameOps
  split_ifs <;>
    simp [cfaFold, cfaSitesOk, cfaSiteOk, cfaStep, List.foldl_cons, List.foldl_nil,
      List.foldl_append]

theorem cfa_phase41 (cfg : Config) (c : Int) :
    cfaFold c (phase41Ops cfg) = c ∧ cfaSitesOk c (phase41Ops cfg) = true := by
  unfold phase41Ops
  split_ifs <;>
    simp [cfaFold, cfaSitesOk, cfaSiteOk, cfaStep, List.foldl_cons, List.foldl_nil,
      List.foldl_append]

theorem cfa_phase42 (cfg : Config) (c : Int) :
    cfaFold c (phase42Ops cfg) = c ∧ cfaSitesOk c (phase42Ops cfg) = true := by
  unfold phase42Ops
  split_ifs <;>
    simp [cfaFold, cfaSitesOk, cfaSiteOk, cfaStep, List.foldl_cons, List.foldl_nil]

theorem cfa_phase43 (cfg : Config) (c : Int) :
    cfaFold c (phase43Ops cfg) = c ∧ cfaSitesOk c (phase43Ops cfg) = true := by
  unfold phase43Ops
  split_ifs <;>
    simp [cfaFold, cfaSitesOk, cfaSiteOk, cfaStep, List.foldl_cons, List.foldl_nil]

theorem cfa_phase44 (cfg : Config) (c : Int) :
    cfaFold c (phase44Ops cfg) = c ∧ cfaSitesOk c (phase44Ops cfg) = true := by
  unfold phase44Ops
  split_ifs <;>
    simp [cfaFold, cfaSitesOk, cfaSiteOk, cfaStep, List.foldl_cons, List.foldl_nil]

theorem cfa_phase51 (cfg : Config) (c : Int) :
    cfaFold c (phase51Ops cfg) = c ∧ cfaSitesOk c (phase51Ops cfg) = true := by
  unfold phase51Ops
  split_ifs <;>
    simp [cfaFold, cfaSitesOk, cfaSiteOk, cfaStep, List.foldl_cons, List.foldl_nil]

theorem cfa_phase5253 (cfg : Config) (c : Int) :
    cfaFold c (phase5253Ops cfg) = c ∧ cfaSitesOk c (phase5253Ops cfg) = true := by
  unfold phase5253Ops
  split_ifs <;>
    simp [cfaFold, cfaSitesOk, cfaSiteOk, cfaStep, List.foldl_cons, List.foldl_nil]

theorem cfa_phase5456 (cfg : Config) :
    cfaFold (frameSizeAfterPrologue cfg : Int) (phase5456Ops cfg)
      = (frameSizeAtEndCall cfg : Int)
    ∧ cfaSitesOk (frameSizeAfterPrologue cfg : Int) (phase5456Ops cfg) = true := by
  have h55 : ∀ c : Int, cfaFold c (phase55Ops cfg) = c
      ∧ cfaSitesOk c (phase55Ops cfg) = true := by
    intro c
    unfold phase55Ops endRetOps endLockOps endCallSeqOps SetNativeParameterOps
    split_ifs <;>
      simp [cfaFold, cfaSitesOk, cfaSiteOk, cfaStep, List.foldl_cons, List.foldl_nil,
        List.foldl_append] <;>
      split_ifs <;>
      simp [cfaFold, cfaSitesOk, cfaSiteOk, cfaStep, List.foldl_cons, List.foldl_nil,
        List.foldl_append]
  have h56 : ∀ c : Int, cfaFold c (phase56Ops cfg) = c
      ∧ cfaSitesOk c (phase56Ops cfg) = true := by
    intro c
    unfold phase56Ops
    split_ifs <;>
      simp [cfaFold, cfaSitesOk, cfaSiteOk, cfaStep, List.foldl_cons, List.foldl_nil]
  have h54fold : ∀ c : Int, cfaFold c (phase54Ops cfg)
      = c + (if endGrows cfg = true then (outArgSizeDiff cfg : Int) else 0) := by
    intro c
    unfold phase54Ops
    split_ifs with hg <;>
      simp [cfaFold, cfaStep, List.foldl_cons, List.foldl_nil, hg]
  have h54ok : ∀ c : Int, cfaSitesOk c (phase54Ops cfg) = true := by
    intro c
    unfold phase54Ops
    split_ifs <;> simp [cfaSitesOk, cfaSiteOk, cfaStep]
  rcases Bool.eq_false_or_eq_true (is_critical_native cfg) with hc | hc
  · have hops : phase5456Ops cfg = [] := by simp [phase5456Ops, hc]
    have hfe : frameSizeAtEndCall cfg = frameSizeAfterPrologue cfg := by
      simp [frameSizeAtEndCall, endGrows, hc]
    rw [hops, hfe]
    simp [cfaFold, cfaSitesOk, List.foldl_nil]
  · have hops : phase5456Ops cfg = phase54Ops cfg ++ phase55Ops cfg ++ phase56Ops cfg := by
      simp [phase5456Ops, hc]
    rw [hops]
    constructor
    · rw [cfaFold_append, cfaFold_append, h54fold, (h55 _).1, (h56 _).1]
      unfold frameSizeAtEndCall
      split_ifs with hg <;> push_cast <;> ring
    · have k1 : cfaSitesOk (frameSizeAfterPrologue cfg : Int) (phase54Ops cfg) = true :=
        h54ok _
      have k2 : cfaSitesOk (cfaFold (frameSizeAfterPrologue cfg : Int) (phase54Ops cfg))
          (phase55Ops cfg) = true := (h55 _).2
      have k12 : cfaSitesOk (frameSizeAfterPrologue cfg : Int)
          (phase54Ops cfg ++ phase55Ops cfg) = true :=
        cfaSitesOk_append_of k1 rfl k2
      have k3 : cfaSitesOk (cfaFold (frameSizeAfterPrologue cfg : Int)
          (phase54Ops cfg ++ phase55Ops cfg)) (phase56Ops cfg) = true := (h56 _).2
      exact cfaSitesOk_append_of k12 rfl k3

theorem out_le_frameSizeAtEndCall (cfg : Config)
    (hc : is_critical_native cfg = false) :
    currentOutArgSizeFinal cfg ≤ frameSizeAtEndCall cfg := by
  unfold currentOutArgSizeFinal frameSizeAtEndCall frameSizeAfterPrologue initialFrameSize
    outArgSizeDiff endGrows main_out_arg_size managed_frame_size
  by_cases hg : cfg.endc.outFrameSize > cfg.main.outFrameSize <;>
    simp [hc, hg] <;> omega

theorem cfa_phase6 (cfg : Config) (c : Int) :
    cfaFold c (phase6Ops cfg) = c ∧ cfaSitesOk c (phase6Ops cfg) = true := by
  unfold phase6Ops PopLocalReferenceFrameOps
  split_ifs <;>
    simp [cfaFold, cfaSitesOk, cfaSiteOk, cfaStep, List.foldl_cons, List.foldl_nil]

theorem cfa_phase7 (cfg : Config) :
    cfaFold (frameSizeAtEndCall cfg : Int) (phase7Ops cfg) = (frameSizeFinal cfg : Int)
    ∧ cfaSitesOk (frameSizeAtEndCall cfg : Int) (phase7Ops cfg) = true := by
  rcases Bool.eq_false_or_eq_true (is_critical_native cfg) with hc | hc
  · have hff : frameSizeFinal cfg = frameSizeAtEndCall cfg := by
      simp [frameSizeFinal, hc]
    unfold phase7Ops
    rw [hff]
    split_ifs <;>
      simp_all [cfaFold, cfaSitesOk, cfaSiteOk, cfaStep, List.foldl_cons, List.foldl_nil,
        List.foldl_append]
  · have hle := out_le_frameSizeAtEndCall cfg hc
    have hff : (frameSizeFinal cfg : Int)
        = (frameSizeAtEndCall cfg : Int) - currentOutArgSizeFinal cfg := by
      unfold frameSizeFinal
      rw [hc]
      push_cast [Nat.cast_sub hle]
      simp
    unfold phase7Ops
    split_ifs <;>
      simp_all [cfaFold, cfaSitesOk, cfaSiteOk, cfaStep, List.foldl_cons, List.foldl_nil,
        List.foldl_append] <;> omega

theorem cfa_phase81 (cfg : Config) (c : Int) :
    cfaFold c (phase81Ops cfg) = c ∧ cfaSitesOk c (phase81Ops cfg) = true := by
  unfold phase81Ops
  split_ifs <;>
    simp [cfaFold, cfaSitesOk, cfaSiteOk, cfaStep, List.foldl_cons, List.foldl_nil,
      List.foldl_append]

theorem cfa_phase82 (cfg : Config) (c : Int) :
    cfaFold c (phase82Ops cfg) = c ∧ cfaSitesOk c (phase82Ops cfg) = true := by
  unfold phase82Ops
  split_ifs <;>
    simp [cfaFold, cfaSitesOk, cfaSiteOk, cfaStep, List.foldl_cons, List.foldl_nil,
      List.foldl_append] <;> constructor <;> first | omega | rfl

theorem cfa_phase83 (cfg : Config) :
    cfaSitesOk (frameSizeFinal cfg : Int) (phase83Ops cfg) = true := by
  unfold phase83Ops PopLocalReferenceFrameOps
  split_ifs <;>
    simp [cfaFold, cfaSitesOk, cfaSiteOk, cfaStep, List.foldl_cons, List.foldl_nil,
      List.foldl_append]

/-- C8: for every successful compile, the assembler's tracked CFA offset
immediately after `BuildFrame` equals `current_frame_size` (the
`buildFrame` trace head defines the CFA offset to exactly the initial
frame size, line 234), and at the `RemoveFrame` site and at the
exception slow path's `DeliverPendingException` site the folded CFA
offset again equals the `current_frame_size` value there, through all
intervening `IncreaseFrameSize`/`DecreaseFrameSize` operations and
slow-path `AdjustCFAOffset` adjustments (the `cfaSitesOk` checker
verifies the `DCHECK_EQ`s of lines 703, 709 and 789 along the whole
trace). -/
theorem C8_cfa_consistency {cfg : Config} {res : CompileResult}
    (h : ArtJniCompileMethodInternal cfg = Except.ok res) :
    res.ops.head? = some (Op.buildFrame (initialFrameSize cfg)
      (methodRegisterInitial cfg) cfg.main.calleeSaveRegisters)
    ∧ cfaSitesOk 0 res.ops = true := by
  rcases compile_ok_eq h with rfl
  have hops : (mkResult cfg).ops = emittedOps cfg := rfl
  constructor
  · rw [hops]
    simp [emittedOps, phase1Ops]
  · rw [hops]
    have he : emittedOps cfg = phase1Ops cfg ++ (phase21Ops cfg ++ (phase22Ops cfg
        ++ (phase23Ops cfg ++ (phase3Ops cfg ++ (phase41Ops cfg ++ (phase42Ops cfg
        ++ (phase43Ops cfg ++ (phase44Ops cfg ++ (phase51Ops cfg ++ (phase5253Ops cfg
        ++ (phase5456Ops cfg ++ (phase6Ops cfg ++ (phase7Ops cfg ++ (phase81Ops cfg
        ++ (phase82Ops cfg ++ phase83Ops cfg))))))))))))))) := by
      simp [emittedOps, List.append_assoc]
    rw [he]
    apply cfaSitesOk_append_of (cfa_phase1 cfg).2 (cfa_phase1 cfg).1
    apply cfaSitesOk_append_of (cfa_phase21 cfg).2 (cfa_phase21 cfg).1
    apply cfaSitesOk_append_of (cfa_phase22 cfg _).2 (cfa_phase22 cfg _).1
    apply cfaSitesOk_append_of (cfa_phase23 cfg _).2 (cfa_phase23 cfg _).1
    apply cfaSitesOk_append_of (cfa_phase3 cfg _).2 (cfa_phase3 cfg _).1
    apply cfaSitesOk_append_of (cfa_phase41 cfg _).2 (cfa_phase41 cfg _).1
    apply cfaSitesOk_append_of (cfa_phase42 cfg _).2 (cfa_phase42 cfg _).1
    apply cfaSitesOk_append_of (cfa_phase43 cfg _).2 (cfa_phase43 cfg _).1
    apply cfaSitesOk_append_of (cfa_phase44 cfg _).2 (cfa_phase44 cfg _).1
    apply cfaSitesOk_append_of (cfa_phase51 cfg _).2 (cfa_phase51 cfg _).1
    apply cfaSitesOk_append_of (cfa_phase5253 cfg _).2 (cfa_phase5253 cfg _).1
    apply cfaSitesOk_append_of (cfa_phase5456 cfg).2 (cfa_phase5456 cfg).1
    apply cfaSitesOk_append_of (cfa_phase6 cfg _).2 (cfa_phase6 cfg _).1
    apply cfaSitesOk_append_of (cfa_phase7 cfg).2 (cfa_phase7 cfg).1
    apply cfaSitesOk_append_of (cfa_phase81 cfg _).2 (cfa_phase81 cfg _).1
    apply cfaSitesOk_append_of (cfa_phase82 cfg _).2 (cfa_phase82 cfg _).1
    exact cfa_phase83 cfg

/-- Witness for C8 at a concrete fast-native reference-return input (the
configuration that exercises the slow-path CFA adjustments). -/
theorem C8_cfa_consistency_witness :
    (mkResult cfgFastRef).ops.head? = some (Op.buildFrame (initialFrameSize cfgFastRef)
      (methodRegisterInitial cfgFastRef) cfgFastRef.main.calleeSaveRegisters)
    ∧ cfaSitesOk 0 (mkResult cfgFastRef).ops = true :=
  @C8_cfa_consistency cfgFastRef (mkResult cfgFastRef) rfl

theorem coreRegisterWithSize_ne {rg : MReg} (hr : rg ≠ MReg.noReg) (s : Nat) :
    coreRegisterWithSize rg s ≠ MReg.noReg := by
  cases rg with
  | noReg => exact absurd rfl hr
  | reg id sz => simp [coreRegisterWithSize]

theorem methodRegisterInitial_ne (cfg : Config) (hwf : ConvWf cfg)
    (hc : is_critical_native cfg = false) :
    methodRegisterInitial cfg ≠ MReg.noReg := by
  unfold methodRegisterInitial
  rw [hc]
  simpa using hwf.1

theorem methodRegisterForMainCall_ne (cfg : Config) (hwf : ConvWf cfg)
    (hc : is_critical_native cfg = false) :
    methodRegisterForMainCall cfg ≠ MReg.noReg := by
  have h2 : cfg.main.calleeSaveScratchRegisters.getD 2 MReg.noReg ≠ MReg.noReg :=
    hwf.2.1 2 (by omega)
  have htemp : coreRegisterWithSize (calleeSaveTemp cfg) cfg.kRawPointerSize
      ≠ MReg.noReg :=
    coreRegisterWithSize_ne (coreRegisterWithSize_ne h2 kIRTCookieSize) _
  unfold methodRegisterForMainCall newMethodRegP41 needsMethodTemp
  by_cases hs : is_static cfg = true <;> by_cases hr : cfg.main.inRegister 1 = true
  · simpa [hs, hr] using hwf.2.2 1 hr
  · simpa [hs, hr] using htemp
  · simpa [hs, hr] using htemp
  · simpa [hs, hr] using htemp

/-- Shape of every recorded method-register event: a read observed while
the register was live, a genuinely live-to-clobbered transition at the
`JniMethodStart*` call (present exactly for normal native), or a
genuinely live-to-clobbered transition at the main native call (present
exactly for non-critical native). -/
theorem events_shape {cfg : Config} (hwf : ConvWf cfg) :
    ∀ e ∈ emittedEvents cfg,
      e = MREvent.read true
      ∨ (e = MREvent.clobber ClobberSite.jniMethodStart true
          ∧ is_critical_native cfg = false ∧ is_fast_native cfg = false)
      ∨ (e = MREvent.clobber ClobberSite.mainNativeCall true
          ∧ is_critical_native cfg = false) := by
  intro e he
  unfold emittedEvents at he
  simp only [List.mem_append] at he
  rcases he with (((he | he) | he) | he) | he
  · unfold phase22Evs at he
    split_ifs at he with hg
    · have hc : is_critical_native cfg = false := by
        rcases Bool.and_eq_true_iff.mp hg with ⟨hg1, -⟩
        rcases Bool.and_eq_true_iff.mp hg1 with ⟨hg2, -⟩
        simpa using hg2
      simp only [List.mem_singleton] at he
      subst he
      exact Or.inl (by simp [methodRegisterInitial_ne cfg hwf hc])
    · exact absurd he (List.not_mem_nil e)
  · unfold phase23Evs at he
    split_ifs at he with hg hgs
    · have hcf : is_critical_native cfg = false ∧ is_fast_native cfg = false := by
        rcases Bool.and_eq_true_iff.mp hg with ⟨hg1, hg2⟩
        exact ⟨by simpa using hg1, by simpa using hg2⟩
      have hne := methodRegisterInitial_ne cfg hwf hcf.1
      simp only [List.mem_append, List.mem_singleton] at he
      rcases he with rfl | rfl
      · exact Or.inl (by simp [hne])
      · exact Or.inr (Or.inl ⟨by simp [hne], hcf⟩)
    · have hcf : is_critical_native cfg = false ∧ is_fast_native cfg = false := by
        rcases Bool.and_eq_true_iff.mp hg with ⟨hg1, hg2⟩
        exact ⟨by simpa using hg1, by simpa using hg2⟩
      have hne := methodRegisterInitial_ne cfg hwf hcf.1
      simp only [List.nil_append, List.mem_singleton] at he
      subst he
      exact Or.inr (Or.inl ⟨by simp [hne], hcf⟩)
    · exact absurd he (List.not_mem_nil e)
  · unfold phase41Evs at he
    split_ifs at he with hg hg2 hg3 hg4
    all_goals
      try exact absurd he (List.not_mem_nil e)
    all_goals
      have hc : is_critical_native cfg = false := by simpa using hg
    · have hfast : is_fast_native cfg = true := (Bool.and_eq_true_iff.mp hg2).2
      have hst : methodRegisterAfterStart cfg = methodRegisterInitial cfg := by
        simp [methodRegisterAfterStart, hfast]
      have hne2 : newMethodRegP41 cfg ≠ MReg.noReg := by
        have := (Bool.and_eq_true_iff.mp hg3).2
        simpa using this
      simp only [List.mem_append, List.mem_singleton] at he
      rcases he with rfl | rfl
      · exact Or.inl (by simp [hst, methodRegisterInitial_ne cfg hwf hc])
      · exact Or.inl (by simp [hne2])
    · have hfast : is_fast_native cfg = true := (Bool.and_eq_true_iff.mp hg2).2
      have hst : methodRegisterAfterStart cfg = methodRegisterInitial cfg := by
        simp [methodRegisterAfterStart, hfast]
      simp only [List.append_nil, List.mem_singleton] at he
      subst he
      exact Or.inl (by simp [hst, methodRegisterInitial_ne cfg hwf hc])
    · have hne2 : newMethodRegP41 cfg ≠ MReg.noReg := by
        have := (Bool.and_eq_true_iff.mp hg4).2
        simpa using this
      simp only [List.nil_append, List.mem_singleton] at he
      subst he
      exact Or.inl (by simp [hne2])
  · unfold phase43Evs at he
    split_ifs at he with hg
    · have hc : is_critical_native cfg = false := by simpa using hg
      have hne := methodRegisterForMainCall_ne cfg hwf hc
      simp only [List.mem_cons, List.mem_singleton, List.not_mem_nil, or_false] at he
      rcases he with rfl | rfl
      · exact Or.inl (by simp [hne])
      · exact Or.inr (Or.inr ⟨by simp [hne], hc⟩)
    · exact absurd he (List.not_mem_nil e)
  · unfold phase81Evs at he
    split_ifs at he with hg
    · simp only [List.mem_singleton] at he
      subst he
      exact Or.inl (by simp [hwf.1])
    · exact absurd he (List.not_mem_nil e)

/-- C9: during emission, every recorded read of `method_register` happens
while the register is live, every transition to the clobbered state is a
genuine live-to-clobbered transition, and such transitions occur exactly
at the `JniMethodStart*` call (present if and only if the method is
normal native) and at the main native call (present if and only if the
method is not critical-native). -/
theorem C9_method_register_liveness {cfg : Config} {res : CompileResult}
    (h : ArtJniCompileMethodInternal cfg = Except.ok res) (hwf : ConvWf cfg) :
    (∀ b, MREvent.read b ∈ res.mrEvents → b = true)
    ∧ (∀ site b, MREvent.clobber site b ∈ res.mrEvents → b = true)
    ∧ (MREvent.clobber ClobberSite.jniMethodStart true ∈ res.mrEvents
        ↔ (is_critical_native cfg = false ∧ is_fast_native cfg = false))
    ∧ (MREvent.clobber ClobberSite.mainNativeCall true ∈ res.mrEvents
        ↔ is_critical_native cfg = false) := by
  rcases compile_ok_eq h with rfl
  have hev : (mkResult cfg).mrEvents = emittedEvents cfg := rfl
  rw [hev]
  refine ⟨?_, ?_, ⟨?_, ?_⟩, ⟨?_, ?_⟩⟩
  · intro b hb
    rcases events_shape hwf _ hb with h1 | ⟨h1, -⟩ | ⟨h1, -⟩
    · injection h1
    · simp at h1
    · simp at h1
  · intro site b hb
    rcases events_shape hwf _ hb with h1 | ⟨h1, -⟩ | ⟨h1, -⟩
    · simp at h1
    · injection h1 with h2 h3
    · injection h1 with h2 h3
  · intro hb
    rcases events_shape hwf _ hb with h1 | ⟨-, h2⟩ | ⟨h1, -⟩
    · simp at h1
    · exact h2
    · simp at h1
  · rintro ⟨hc, hf⟩
    have hne := methodRegisterInitial_ne cfg hwf hc
    unfold emittedEvents
    simp only [List.mem_append]
    refine Or.inl (Or.inl (Or.inl (Or.inr ?_)))
    simp [phase23Evs, hc, hf, hne]
  · intro hb
    rcases events_shape hwf _ hb with h1 | ⟨h1, -⟩ | ⟨-, h2⟩
    · simp at h1
    · simp at h1
    · exact h2
  · intro hc
    have hne := methodRegisterForMainCall_ne cfg hwf hc
    unfold emittedEvents
    simp only [List.mem_append]
    refine Or.inl (Or.inr ?_)
    simp [phase43Evs, hc, hne]

/-- Witness for C9 at a concrete plain-native input. -/
theorem C9_method_register_liveness_witness :
    (∀ b, MREvent.read b ∈ (mkResult cfgPlainSync).mrEvents → b = true)
    ∧ (∀ site b, MREvent.clobber site b ∈ (mkResult cfgPlainSync).mrEvents → b = true)
    ∧ (MREvent.clobber ClobberSite.jniMethodStart true ∈ (mkResult cfgPlainSync).mrEvents
        ↔ (is_critical_native cfgPlainSync = false
            ∧ is_fast_native cfgPlainSync = false))
    ∧ (MREvent.clobber ClobberSite.mainNativeCall true ∈ (mkResult cfgPlainSync).mrEvents
        ↔ is_critical_native cfgPlainSync = false) :=
  @C9_method_register_liveness cfgPlainSync (mkResult cfgPlainSync) rfl
    ⟨by decide, by decide, fun j hj => Bool.noConfusion hj⟩
